import Mathlib

/-!
Shallow embedding of `src/mailchimp_to_convertkit.py` (class
`MailChimpToConvertKit`) and verification of the specification's claims
about it.

Python strings are modelled as lists of Unicode code points (`List Nat`);
the string methods the program uses (`strip`, `lower`, `split`, `join`,
`replace`, `re.split`, `re.match`) are translated below, and the stateful
methods (`analyze_input`, `convert`) become folds over an explicit state.
-/

namespace MC2CK

/-- A Python string: its sequence of Unicode code points. -/
abbrev Str := List Nat

/-- Code points of a Lean string literal, used to write `Str` constants. -/
def S (s : String) : Str := s.data.map Char.toNat

/-- Whitespace recognised by Python `str.strip()` / `str.split()`
(ASCII whitespace: tab, LF, VT, FF, CR, space). -/
def isWS (c : Nat) : Bool := c == 32 || c == 9 || c == 10 || c == 11 || c == 12 || c == 13

/-- Python `str.strip()`: drop whitespace from both ends. -/
def strip (s : Str) : Str := ((s.dropWhile isWS).reverse.dropWhile isWS).reverse

/-- Python `str.lower()` on one ASCII code point: `A`-`Z` map to `a`-`z`,
every other ASCII code point to itself. -/
def asciiLowerC (c : Nat) : Nat := if 65 ≤ c ∧ c ≤ 90 then c + 32 else c

set_option maxHeartbeats 3200000 in
/-- The non-ASCII part of the lowercase mapping CPython's `str.lower()`
applies: every code point at or above 128 whose lowercase differs from
itself, paired with the code points of its lowercase form (one entry,
U+0130, expands to two code points). Enumerated from the Unicode case
tables. -/
def lowerTable : List (Nat × Str) := [
  (192, [224]), (193, [225]), (194, [226]), (195, [227]), (196, [228]), (197, [229]),
  (198, [230]), (199, [231]), (200, [232]), (201, [233]), (202, [234]), (203, [235]),
  (204, [236]), (205, [237]), (206, [238]), (207, [239]), (208, [240]), (209, [241]),
  (210, [242]), (211, [243]), (212, [244]), (213, [245]), (214, [246]), (216, [248]),
  (217, [249]), (218, [250]), (219, [251]), (220, [252]), (221, [253]), (222, [254]),
  (256, [257]), (258, [259]), (260, [261]), (262, [263]), (264, [265]), (266, [267]),
  (268, [269]), (270, [271]), (272, [273]), (274, [275]), (276, [277]), (278, [279]),
  (280, [281]), (282, [283]), (284, [285]), (286, [287]), (288, [289]), (290, [291]),
  (292, [293]), (294, [295]), (296, [297]), (298, [299]), (300, [301]), (302, [303]),
  (304, [105, 775]), (306, [307]), (308, [309]), (310, [311]), (313, [314]), (315, [316]),
  (317, [318]), (319, [320]), (321, [322]), (323, [324]), (325, [326]), (327, [328]),
  (330, [331]), (332, [333]), (334, [335]), (336, [337]), (338, [339]), (340, [341]),
  (342, [343]), (344, [345]), (346, [347]), (348, [349]), (350, [351]), (352, [353]),
  (354, [355]), (356, [357]), (358, [359]), (360, [361]), (362, [363]), (364, [365]),
  (366, [367]), (368, [369]), (370, [371]), (372, [373]), (374, [375]), (376, [255]),
  (377, [378]), (379, [380]), (381, [382]), (385, [595]), (386, [387]), (388, [389]),
  (390, [596]), (391, [392]), (393, [598]), (394, [599]), (395, [396]), (398, [477]),
  (399, [601]), (400, [603]), (401, [402]), (403, [608]), (404, [611]), (406, [617]),
  (407, [616]), (408, [409]), (412, [623]), (413, [626]), (415, [629]), (416, [417]),
  (418, [419]), (420, [421]), (422, [640]), (423, [424]), (425, [643]), (428, [429]),
  (430, [648]), (431, [432]), (433, [650]), (434, [651]), (435, [436]), (437, [438]),
  (439, [658]), (440, [441]), (444, [445]), (452, [454]), (453, [454]), (455, [457]),
  (456, [457]), (458, [460]), (459, [460]), (461, [462]), (463, [464]), (465, [466]),
  (467, [468]), (469, [470]), (471, [472]), (473, [474]), (475, [476]), (478, [479]),
  (480, [481]), (482, [483]), (484, [485]), (486, [487]), (488, [489]), (490, [491]),
  (492, [493]), (494, [495]), (497, [499]), (498, [499]), (500, [501]), (502, [405]),
  (503, [447]), (504, [505]), (506, [507]), (508, [509]), (510, [511]), (512, [513]),
  (514, [515]), (516, [517]), (518, [519]), (520, [521]), (522, [523]), (524, [525]),
  (526, [527]), (528, [529]), (530, [531]), (532, [533]), (534, [535]), (536, [537]),
  (538, [539]), (540, [541]), (542, [543]), (544, [414]), (546, [547]), (548, [549]),
  (550, [551]), (552, [553]), (554, [555]), (556, [557]), (558, [559]), (560, [561]),
  (562, [563]), (570, [11365]), (571, [572]), (573, [410]), (574, [11366]), (577, [578]),
  (579, [384]), (580, [649]), (581, [652]), (582, [583]), (584, [585]), (586, [587]),
  (588, [589]), (590, [591]), (880, [881]), (882, [883]), (886, [887]), (895, [1011]),
  (902, [940]), (904, [941]), (905, [942]), (906, [943]), (908, [972]), (910, [973]),
  (911, [974]), (913, [945]), (914, [946]), (915, [947]), (916, [948]), (917, [949]),
  (918, [950]), (919, [951]), (920, [952]), (921, [953]), (922, [954]), (923, [955]),
  (924, [956]), (925, [957]), (926, [958]), (927, [959]), (928, [960]), (929, [961]),
  (931, [963]), (932, [964]), (933, [965]), (934, [966]), (935, [967]), (936, [968]),
  (937, [969]), (938, [970]), (939, [971]), (975, [983]), (984, [985]), (986, [987]),
  (988, [989]), (990, [991]), (992, [993]), (994, [995]), (996, [997]), (998, [999]),
  (1000, [1001]), (1002, [1003]), (1004, [1005]), (1006, [1007]), (1012, [952]), (1015, [1016]),
  (1017, [1010]), (1018, [1019]), (1021, [891]), (1022, [892]), (1023, [893]), (1024, [1104]),
  (1025, [1105]), (1026, [1106]), (1027, [1107]), (1028, [1108]), (1029, [1109]), (1030, [1110]),
  (1031, [1111]), (1032, [1112]), (1033, [1113]), (1034, [1114]), (1035, [1115]), (1036, [1116]),
  (1037, [1117]), (1038, [1118]), (1039, [1119]), (1040, [1072]), (1041, [1073]), (1042, [1074]),
  (1043, [1075]), (1044, [1076]), (1045, [1077]), (1046, [1078]), (1047, [1079]), (1048, [1080]),
  (1049, [1081]), (1050, [1082]), (1051, [1083]), (1052, [1084]), (1053, [1085]), (1054, [1086]),
  (1055, [1087]), (1056, [1088]), (1057, [1089]), (1058, [1090]), (1059, [1091]), (1060, [1092]),
  (1061, [1093]), (1062, [1094]), (1063, [1095]), (1064, [1096]), (1065, [1097]), (1066, [1098]),
  (1067, [1099]), (1068, [1100]), (1069, [1101]), (1070, [1102]), (1071, [1103]), (1120, [1121]),
  (1122, [1123]), (1124, [1125]), (1126, [1127]), (1128, [1129]), (1130, [1131]), (1132, [1133]),
  (1134, [1135]), (1136, [1137]), (1138, [1139]), (1140, [1141]), (1142, [1143]), (1144, [1145]),
  (1146, [1147]), (1148, [1149]), (1150, [1151]), (1152, [1153]), (1162, [1163]), (1164, [1165]),
  (1166, [1167]), (1168, [1169]), (1170, [1171]), (1172, [1173]), (1174, [1175]), (1176, [1177]),
  (1178, [1179]), (1180, [1181]), (1182, [1183]), (1184, [1185]), (1186, [1187]), (1188, [1189]),
  (1190, [1191]), (1192, [1193]), (1194, [1195]), (1196, [1197]), (1198, [1199]), (1200, [1201]),
  (1202, [1203]), (1204, [1205]), (1206, [1207]), (1208, [1209]), (1210, [1211]), (1212, [1213]),
  (1214, [1215]), (1216, [1231]), (1217, [1218]), (1219, [1220]), (1221, [1222]), (1223, [1224]),
  (1225, [1226]), (1227, [1228]), (1229, [1230]), (1232, [1233]), (1234, [1235]), (1236, [1237]),
  (1238, [1239]), (1240, [1241]), (1242, [1243]), (1244, [1245]), (1246, [1247]), (1248, [1249]),
  (1250, [1251]), (1252, [1253]), (1254, [1255]), (1256, [1257]), (1258, [1259]), (1260, [1261]),
  (1262, [1263]), (1264, [1265]), (1266, [1267]), (1268, [1269]), (1270, [1271]), (1272, [1273]),
  (1274, [1275]), (1276, [1277]), (1278, [1279]), (1280, [1281]), (1282, [1283]), (1284, [1285]),
  (1286, [1287]), (1288, [1289]), (1290, [1291]), (1292, [1293]), (1294, [1295]), (1296, [1297]),
  (1298, [1299]), (1300, [1301]), (1302, [1303]), (1304, [1305]), (1306, [1307]), (1308, [1309]),
  (1310, [1311]), (1312, [1313]), (1314, [1315]), (1316, [1317]), (1318, [1319]), (1320, [1321]),
  (1322, [1323]), (1324, [1325]), (1326, [1327]), (1329, [1377]), (1330, [1378]), (1331, [1379]),
  (1332, [1380]), (1333, [1381]), (1334, [1382]), (1335, [1383]), (1336, [1384]), (1337, [1385]),
  (1338, [1386]), (1339, [1387]), (1340, [1388]), (1341, [1389]), (1342, [1390]), (1343, [1391]),
  (1344, [1392]), (1345, [1393]), (1346, [1394]), (1347, [1395]), (1348, [1396]), (1349, [1397]),
  (1350, [1398]), (1351, [1399]), (1352, [1400]), (1353, [1401]), (1354, [1402]), (1355, [1403]),
  (1356, [1404]), (1357, [1405]), (1358, [1406]), (1359, [1407]), (1360, [1408]), (1361, [1409]),
  (1362, [1410]), (1363, [1411]), (1364, [1412]), (1365, [1413]), (1366, [1414]), (4256, [11520]),
  (4257, [11521]), (4258, [11522]), (4259, [11523]), (4260, [11524]), (4261, [11525]), (4262, [11526]),
  (4263, [11527]), (4264, [11528]), (4265, [11529]), (4266, [11530]), (4267, [11531]), (4268, [11532]),
  (4269, [11533]), (4270, [11534]), (4271, [11535]), (4272, [11536]), (4273, [11537]), (4274, [11538]),
  (4275, [11539]), (4276, [11540]), (4277, [11541]), (4278, [11542]), (4279, [11543]), (4280, [11544]),
  (4281, [11545]), (4282, [11546]), (4283, [11547]), (4284, [11548]), (4285, [11549]), (4286, [11550]),
  (4287, [11551]), (4288, [11552]), (4289, [11553]), (4290, [11554]), (4291, [11555]), (4292, [11556]),
  (4293, [11557]), (4295, [11559]), (4301, [11565]), (5024, [43888]), (5025, [43889]), (5026, [43890]),
  (5027, [43891]), (5028, [43892]), (5029, [43893]), (5030, [43894]), (5031, [43895]), (5032, [43896]),
  (5033, [43897]), (5034, [43898]), (5035, [43899]), (5036, [43900]), (5037, [43901]), (5038, [43902]),
  (5039, [43903]), (5040, [43904]), (5041, [43905]), (5042, [43906]), (5043, [43907]), (5044, [43908]),
  (5045, [43909]), (5046, [43910]), (5047, [43911]), (5048, [43912]), (5049, [43913]), (5050, [43914]),
  (5051, [43915]), (5052, [43916]), (5053, [43917]), (5054, [43918]), (5055, [43919]), (5056, [43920]),
  (5057, [43921]), (5058, [43922]), (5059, [43923]), (5060, [43924]), (5061, [43925]), (5062, [43926]),
  (5063, [43927]), (5064, [43928]), (5065, [43929]), (5066, [43930]), (5067, [43931]), (5068, [43932]),
  (5069, [43933]), (5070, [43934]), (5071, [43935]), (5072, [43936]), (5073, [43937]), (5074, [43938]),
  (5075, [43939]), (5076, [43940]), (5077, [43941]), (5078, [43942]), (5079, [43943]), (5080, [43944]),
  (5081, [43945]), (5082, [43946]), (5083, [43947]), (5084, [43948]), (5085, [43949]), (5086, [43950]),
  (5087, [43951]), (5088, [43952]), (5089, [43953]), (5090, [43954]), (5091, [43955]), (5092, [43956]),
  (5093, [43957]), (5094, [43958]), (5095, [43959]), (5096, [43960]), (5097, [43961]), (5098, [43962]),
  (5099, [43963]), (5100, [43964]), (5101, [43965]), (5102, [43966]), (5103, [43967]), (5104, [5112]),
  (5105, [5113]), (5106, [5114]), (5107, [5115]), (5108, [5116]), (5109, [5117]), (7312, [4304]),
  (7313, [4305]), (7314, [4306]), (7315, [4307]), (7316, [4308]), (7317, [4309]), (7318, [4310]),
  (7319, [4311]), (7320, [4312]), (7321, [4313]), (7322, [4314]), (7323, [4315]), (7324, [4316]),
  (7325, [4317]), (7326, [4318]), (7327, [4319]), (7328, [4320]), (7329, [4321]), (7330, [4322]),
  (7331, [4323]), (7332, [4324]), (7333, [4325]), (7334, [4326]), (7335, [4327]), (7336, [4328]),
  (7337, [4329]), (7338, [4330]), (7339, [4331]), (7340, [4332]), (7341, [4333]), (7342, [4334]),
  (7343, [4335]), (7344, [4336]), (7345, [4337]), (7346, [4338]), (7347, [4339]), (7348, [4340]),
  (7349, [4341]), (7350, [4342]), (7351, [4343]), (7352, [4344]), (7353, [4345]), (7354, [4346]),
  (7357, [4349]), (7358, [4350]), (7359, [4351]), (7680, [7681]), (7682, [7683]), (7684, [7685]),
  (7686, [7687]), (7688, [7689]), (7690, [7691]), (7692, [7693]), (7694, [7695]), (7696, [7697]),
  (7698, [7699]), (7700, [7701]), (7702, [7703]), (7704, [7705]), (7706, [7707]), (7708, [7709]),
  (7710, [7711]), (7712, [7713]), (7714, [7715]), (7716, [7717]), (7718, [7719]), (7720, [7721]),
  (7722, [7723]), (7724, [7725]), (7726, [7727]), (7728, [7729]), (7730, [7731]), (7732, [7733]),
  (7734, [7735]), (7736, [7737]), (7738, [7739]), (7740, [7741]), (7742, [7743]), (7744, [7745]),
  (7746, [7747]), (7748, [7749]), (7750, [7751]), (7752, [7753]), (7754, [7755]), (7756, [7757]),
  (7758, [7759]), (7760, [7761]), (7762, [7763]), (7764, [7765]), (7766, [7767]), (7768, [7769]),
  (7770, [7771]), (7772, [7773]), (7774, [7775]), (7776, [7777]), (7778, [7779]), (7780, [7781]),
  (7782, [7783]), (7784, [7785]), (7786, [7787]), (7788, [7789]), (7790, [7791]), (7792, [7793]),
  (7794, [7795]), (7796, [7797]), (7798, [7799]), (7800, [7801]), (7802, [7803]), (7804, [7805]),
  (7806, [7807]), (7808, [7809]), (7810, [7811]), (7812, [7813]), (7814, [7815]), (7816, [7817]),
  (7818, [7819]), (7820, [7821]), (7822, [7823]), (7824, [7825]), (7826, [7827]), (7828, [7829]),
  (7838, [223]), (7840, [7841]), (7842, [7843]), (7844, [7845]), (7846, [7847]), (7848, [7849]),
  (7850, [7851]), (7852, [7853]), (7854, [7855]), (7856, [7857]), (7858, [7859]), (7860, [7861]),
  (7862, [7863]), (7864, [7865]), (7866, [7867]), (7868, [7869]), (7870, [7871]), (7872, [7873]),
  (7874, [7875]), (7876, [7877]), (7878, [7879]), (7880, [7881]), (7882, [7883]), (7884, [7885]),
  (7886, [7887]), (7888, [7889]), (7890, [7891]), (7892, [7893]), (7894, [7895]), (7896, [7897]),
  (7898, [7899]), (7900, [7901]), (7902, [7903]), (7904, [7905]), (7906, [7907]), (7908, [7909]),
  (7910, [7911]), (7912, [7913]), (7914, [7915]), (7916, [7917]), (7918, [7919]), (7920, [7921]),
  (7922, [7923]), (7924, [7925]), (7926, [7927]), (7928, [7929]), (7930, [7931]), (7932, [7933]),
  (7934, [7935]), (7944, [7936]), (7945, [7937]), (7946, [7938]), (7947, [7939]), (7948, [7940]),
  (7949, [7941]), (7950, [7942]), (7951, [7943]), (7960, [7952]), (7961, [7953]), (7962, [7954]),
  (7963, [7955]), (7964, [7956]), (7965, [7957]), (7976, [7968]), (7977, [7969]), (7978, [7970]),
  (7979, [7971]), (7980, [7972]), (7981, [7973]), (7982, [7974]), (7983, [7975]), (7992, [7984]),
  (7993, [7985]), (7994, [7986]), (7995, [7987]), (7996, [7988]), (7997, [7989]), (7998, [7990]),
  (7999, [7991]), (8008, [8000]), (8009, [8001]), (8010, [8002]), (8011, [8003]), (8012, [8004]),
  (8013, [8005]), (8025, [8017]), (8027, [8019]), (8029, [8021]), (8031, [8023]), (8040, [8032]),
  (8041, [8033]), (8042, [8034]), (8043, [8035]), (8044, [8036]), (8045, [8037]), (8046, [8038]),
  (8047, [8039]), (8072, [8064]), (8073, [8065]), (8074, [8066]), (8075, [8067]), (8076, [8068]),
  (8077, [8069]), (8078, [8070]), (8079, [8071]), (8088, [8080]), (8089, [8081]), (8090, [8082]),
  (8091, [8083]), (8092, [8084]), (8093, [8085]), (8094, [8086]), (8095, [8087]), (8104, [8096]),
  (8105, [8097]), (8106, [8098]), (8107, [8099]), (8108, [8100]), (8109, [8101]), (8110, [8102]),
  (8111, [8103]), (8120, [8112]), (8121, [8113]), (8122, [8048]), (8123, [8049]), (8124, [8115]),
  (8136, [8050]), (8137, [8051]), (8138, [8052]), (8139, [8053]), (8140, [8131]), (8152, [8144]),
  (8153, [8145]), (8154, [8054]), (8155, [8055]), (8168, [8160]), (8169, [8161]), (8170, [8058]),
  (8171, [8059]), (8172, [8165]), (8184, [8056]), (8185, [8057]), (8186, [8060]), (8187, [8061]),
  (8188, [8179]), (8486, [969]), (8490, [107]), (8491, [229]), (8498, [8526]), (8544, [8560]),
  (8545, [8561]), (8546, [8562]), (8547, [8563]), (8548, [8564]), (8549, [8565]), (8550, [8566]),
  (8551, [8567]), (8552, [8568]), (8553, [8569]), (8554, [8570]), (8555, [8571]), (8556, [8572]),
  (8557, [8573]), (8558, [8574]), (8559, [8575]), (8579, [8580]), (9398, [9424]), (9399, [9425]),
  (9400, [9426]), (9401, [9427]), (9402, [9428]), (9403, [9429]), (9404, [9430]), (9405, [9431]),
  (9406, [9432]), (9407, [9433]), (9408, [9434]), (9409, [9435]), (9410, [9436]), (9411, [9437]),
  (9412, [9438]), (9413, [9439]), (9414, [9440]), (9415, [9441]), (9416, [9442]), (9417, [9443]),
  (9418, [9444]), (9419, [9445]), (9420, [9446]), (9421, [9447]), (9422, [9448]), (9423, [9449]),
  (11264, [11312]), (11265, [11313]), (11266, [11314]), (11267, [11315]), (11268, [11316]), (11269, [11317]),
  (11270, [11318]), (11271, [11319]), (11272, [11320]), (11273, [11321]), (11274, [11322]), (11275, [11323]),
  (11276, [11324]), (11277, [11325]), (11278, [11326]), (11279, [11327]), (11280, [11328]), (11281, [11329]),
  (11282, [11330]), (11283, [11331]), (11284, [11332]), (11285, [11333]), (11286, [11334]), (11287, [11335]),
  (11288, [11336]), (11289, [11337]), (11290, [11338]), (11291, [11339]), (11292, [11340]), (11293, [11341]),
  (11294, [11342]), (11295, [11343]), (11296, [11344]), (11297, [11345]), (11298, [11346]), (11299, [11347]),
  (11300, [11348]), (11301, [11349]), (11302, [11350]), (11303, [11351]), (11304, [11352]), (11305, [11353]),
  (11306, [11354]), (11307, [11355]), (11308, [11356]), (11309, [11357]), (11310, [11358]), (11311, [11359]),
  (11360, [11361]), (11362, [619]), (11363, [7549]), (11364, [637]), (11367, [11368]), (11369, [11370]),
  (11371, [11372]), (11373, [593]), (11374, [625]), (11375, [592]), (11376, [594]), (11378, [11379]),
  (11381, [11382]), (11390, [575]), (11391, [576]), (11392, [11393]), (11394, [11395]), (11396, [11397]),
  (11398, [11399]), (11400, [11401]), (11402, [11403]), (11404, [11405]), (11406, [11407]), (11408, [11409]),
  (11410, [11411]), (11412, [11413]), (11414, [11415]), (11416, [11417]), (11418, [11419]), (11420, [11421]),
  (11422, [11423]), (11424, [11425]), (11426, [11427]), (11428, [11429]), (11430, [11431]), (11432, [11433]),
  (11434, [11435]), (11436, [11437]), (11438, [11439]), (11440, [11441]), (11442, [11443]), (11444, [11445]),
  (11446, [11447]), (11448, [11449]), (11450, [11451]), (11452, [11453]), (11454, [11455]), (11456, [11457]),
  (11458, [11459]), (11460, [11461]), (11462, [11463]), (11464, [11465]), (11466, [11467]), (11468, [11469]),
  (11470, [11471]), (11472, [11473]), (11474, [11475]), (11476, [11477]), (11478, [11479]), (11480, [11481]),
  (11482, [11483]), (11484, [11485]), (11486, [11487]), (11488, [11489]), (11490, [11491]), (11499, [11500]),
  (11501, [11502]), (11506, [11507]), (42560, [42561]), (42562, [42563]), (42564, [42565]), (42566, [42567]),
  (42568, [42569]), (42570, [42571]), (42572, [42573]), (42574, [42575]), (42576, [42577]), (42578, [42579]),
  (42580, [42581]), (42582, [42583]), (42584, [42585]), (42586, [42587]), (42588, [42589]), (42590, [42591]),
  (42592, [42593]), (42594, [42595]), (42596, [42597]), (42598, [42599]), (42600, [42601]), (42602, [42603]),
  (42604, [42605]), (42624, [42625]), (42626, [42627]), (42628, [42629]), (42630, [42631]), (42632, [42633]),
  (42634, [42635]), (42636, [42637]), (42638, [42639]), (42640, [42641]), (42642, [42643]), (42644, [42645]),
  (42646, [42647]), (42648, [42649]), (42650, [42651]), (42786, [42787]), (42788, [42789]), (42790, [42791]),
  (42792, [42793]), (42794, [42795]), (42796, [42797]), (42798, [42799]), (42802, [42803]), (42804, [42805]),
  (42806, [42807]), (42808, [42809]), (42810, [42811]), (42812, [42813]), (42814, [42815]), (42816, [42817]),
  (42818, [42819]), (42820, [42821]), (42822, [42823]), (42824, [42825]), (42826, [42827]), (42828, [42829]),
  (42830, [42831]), (42832, [42833]), (42834, [42835]), (42836, [42837]), (42838, [42839]), (42840, [42841]),
  (42842, [42843]), (42844, [42845]), (42846, [42847]), (42848, [42849]), (42850, [42851]), (42852, [42853]),
  (42854, [42855]), (42856, [42857]), (42858, [42859]), (42860, [42861]), (42862, [42863]), (42873, [42874]),
  (42875, [42876]), (42877, [7545]), (42878, [42879]), (42880, [42881]), (42882, [42883]), (42884, [42885]),
  (42886, [42887]), (42891, [42892]), (42893, [613]), (42896, [42897]), (42898, [42899]), (42902, [42903]),
  (42904, [42905]), (42906, [42907]), (42908, [42909]), (42910, [42911]), (42912, [42913]), (42914, [42915]),
  (42916, [42917]), (42918, [42919]), (42920, [42921]), (42922, [614]), (42923, [604]), (42924, [609]),
  (42925, [620]), (42926, [618]), (42928, [670]), (42929, [647]), (42930, [669]), (42931, [43859]),
  (42932, [42933]), (42934, [42935]), (42936, [42937]), (42938, [42939]), (42940, [42941]), (42942, [42943]),
  (42944, [42945]), (42946, [42947]), (42948, [42900]), (42949, [642]), (42950, [7566]), (42951, [42952]),
  (42953, [42954]), (42960, [42961]), (42966, [42967]), (42968, [42969]), (42997, [42998]), (65313, [65345]),
  (65314, [65346]), (65315, [65347]), (65316, [65348]), (65317, [65349]), (65318, [65350]), (65319, [65351]),
  (65320, [65352]), (65321, [65353]), (65322, [65354]), (65323, [65355]), (65324, [65356]), (65325, [65357]),
  (65326, [65358]), (65327, [65359]), (65328, [65360]), (65329, [65361]), (65330, [65362]), (65331, [65363]),
  (65332, [65364]), (65333, [65365]), (65334, [65366]), (65335, [65367]), (65336, [65368]), (65337, [65369]),
  (65338, [65370]), (66560, [66600]), (66561, [66601]), (66562, [66602]), (66563, [66603]), (66564, [66604]),
  (66565, [66605]), (66566, [66606]), (66567, [66607]), (66568, [66608]), (66569, [66609]), (66570, [66610]),
  (66571, [66611]), (66572, [66612]), (66573, [66613]), (66574, [66614]), (66575, [66615]), (66576, [66616]),
  (66577, [66617]), (66578, [66618]), (66579, [66619]), (66580, [66620]), (66581, [66621]), (66582, [66622]),
  (66583, [66623]), (66584, [66624]), (66585, [66625]), (66586, [66626]), (66587, [66627]), (66588, [66628]),
  (66589, [66629]), (66590, [66630]), (66591, [66631]), (66592, [66632]), (66593, [66633]), (66594, [66634]),
  (66595, [66635]), (66596, [66636]), (66597, [66637]), (66598, [66638]), (66599, [66639]), (66736, [66776]),
  (66737, [66777]), (66738, [66778]), (66739, [66779]), (66740, [66780]), (66741, [66781]), (66742, [66782]),
  (66743, [66783]), (66744, [66784]), (66745, [66785]), (66746, [66786]), (66747, [66787]), (66748, [66788]),
  (66749, [66789]), (66750, [66790]), (66751, [66791]), (66752, [66792]), (66753, [66793]), (66754, [66794]),
  (66755, [66795]), (66756, [66796]), (66757, [66797]), (66758, [66798]), (66759, [66799]), (66760, [66800]),
  (66761, [66801]), (66762, [66802]), (66763, [66803]), (66764, [66804]), (66765, [66805]), (66766, [66806]),
  (66767, [66807]), (66768, [66808]), (66769, [66809]), (66770, [66810]), (66771, [66811]), (66928, [66967]),
  (66929, [66968]), (66930, [66969]), (66931, [66970]), (66932, [66971]), (66933, [66972]), (66934, [66973]),
  (66935, [66974]), (66936, [66975]), (66937, [66976]), (66938, [66977]), (66940, [66979]), (66941, [66980]),
  (66942, [66981]), (66943, [66982]), (66944, [66983]), (66945, [66984]), (66946, [66985]), (66947, [66986]),
  (66948, [66987]), (66949, [66988]), (66950, [66989]), (66951, [66990]), (66952, [66991]), (66953, [66992]),
  (66954, [66993]), (66956, [66995]), (66957, [66996]), (66958, [66997]), (66959, [66998]), (66960, [66999]),
  (66961, [67000]), (66962, [67001]), (66964, [67003]), (66965, [67004]), (68736, [68800]), (68737, [68801]),
  (68738, [68802]), (68739, [68803]), (68740, [68804]), (68741, [68805]), (68742, [68806]), (68743, [68807]),
  (68744, [68808]), (68745, [68809]), (68746, [68810]), (68747, [68811]), (68748, [68812]), (68749, [68813]),
  (68750, [68814]), (68751, [68815]), (68752, [68816]), (68753, [68817]), (68754, [68818]), (68755, [68819]),
  (68756, [68820]), (68757, [68821]), (68758, [68822]), (68759, [68823]), (68760, [68824]), (68761, [68825]),
  (68762, [68826]), (68763, [68827]), (68764, [68828]), (68765, [68829]), (68766, [68830]), (68767, [68831]),
  (68768, [68832]), (68769, [68833]), (68770, [68834]), (68771, [68835]), (68772, [68836]), (68773, [68837]),
  (68774, [68838]), (68775, [68839]), (68776, [68840]), (68777, [68841]), (68778, [68842]), (68779, [68843]),
  (68780, [68844]), (68781, [68845]), (68782, [68846]), (68783, [68847]), (68784, [68848]), (68785, [68849]),
  (68786, [68850]), (71840, [71872]), (71841, [71873]), (71842, [71874]), (71843, [71875]), (71844, [71876]),
  (71845, [71877]), (71846, [71878]), (71847, [71879]), (71848, [71880]), (71849, [71881]), (71850, [71882]),
  (71851, [71883]), (71852, [71884]), (71853, [71885]), (71854, [71886]), (71855, [71887]), (71856, [71888]),
  (71857, [71889]), (71858, [71890]), (71859, [71891]), (71860, [71892]), (71861, [71893]), (71862, [71894]),
  (71863, [71895]), (71864, [71896]), (71865, [71897]), (71866, [71898]), (71867, [71899]), (71868, [71900]),
  (71869, [71901]), (71870, [71902]), (71871, [71903]), (93760, [93792]), (93761, [93793]), (93762, [93794]),
  (93763, [93795]), (93764, [93796]), (93765, [93797]), (93766, [93798]), (93767, [93799]), (93768, [93800]),
  (93769, [93801]), (93770, [93802]), (93771, [93803]), (93772, [93804]), (93773, [93805]), (93774, [93806]),
  (93775, [93807]), (93776, [93808]), (93777, [93809]), (93778, [93810]), (93779, [93811]), (93780, [93812]),
  (93781, [93813]), (93782, [93814]), (93783, [93815]), (93784, [93816]), (93785, [93817]), (93786, [93818]),
  (93787, [93819]), (93788, [93820]), (93789, [93821]), (93790, [93822]), (93791, [93823]), (125184, [125218]),
  (125185, [125219]), (125186, [125220]), (125187, [125221]), (125188, [125222]), (125189, [125223]), (125190, [125224]),
  (125191, [125225]), (125192, [125226]), (125193, [125227]), (125194, [125228]), (125195, [125229]), (125196, [125230]),
  (125197, [125231]), (125198, [125232]), (125199, [125233]), (125200, [125234]), (125201, [125235]), (125202, [125236]),
  (125203, [125237]), (125204, [125238]), (125205, [125239]), (125206, [125240]), (125207, [125241]), (125208, [125242]),
  (125209, [125243]), (125210, [125244]), (125211, [125245]), (125212, [125246]), (125213, [125247]), (125214, [125248]),
  (125215, [125249]), (125216, [125250]), (125217, [125251])]

/-- Python `str.lower()` on one code point: the ASCII rule below 128, the
Unicode table at or above 128, identity elsewhere. -/
def charLower (c : Nat) : Str :=
  if c < 128 then [asciiLowerC c]
  else
    match lowerTable.find? (fun p => p.1 == c) with
    | some p => p.2
    | none => [c]

/-- Python `str.lower()`, code point by code point. The one divergence
from CPython is the Greek final-sigma context rule (word-final U+03A3
lowers to U+03C2 where this map gives U+03C3): both targets lie outside
every character class, separator set and whitespace set this program
tests, so no branch of the program distinguishes the two forms. -/
def lower : Str → Str
  | [] => []
  | c :: cs => charLower c ++ lower cs

/-- Python `str.split()` (no argument): maximal runs of non-whitespace. -/
def splitWS : Str → List Str
  | [] => []
  | [c] => if isWS c then [] else [[c]]
  | c :: d :: cs =>
    if isWS c then splitWS (d :: cs)
    else if isWS d then [c] :: splitWS cs
    else
      match splitWS (d :: cs) with
      | [] => [[c]]
      | w :: ws => (c :: w) :: ws

/-- Python `sep.join(xs)`. -/
def joinWith (sep : Str) : List Str → Str
  | [] => []
  | [w] => w
  | w :: x :: ws => w ++ sep ++ joinWith sep (x :: ws)

/-- `[a-zA-Z]` of the email pattern. -/
def isAlphaC (c : Nat) : Bool := decide (65 ≤ c ∧ c ≤ 90) || decide (97 ≤ c ∧ c ≤ 122)

/-- `[0-9]` of the email pattern. -/
def isDigitC (c : Nat) : Bool := decide (48 ≤ c ∧ c ≤ 57)

/-- `[a-zA-Z0-9._%+-]`, the local-part character class. -/
def isLocalC (c : Nat) : Bool :=
  isAlphaC c || isDigitC c || c == 46 || c == 95 || c == 37 || c == 43 || c == 45

/-- `[a-zA-Z0-9.-]`, the domain character class. -/
def isDomainC (c : Nat) : Bool := isAlphaC c || isDigitC c || c == 46 || c == 45

/-- Anchored match of the regex `^[a-zA-Z0-9._%+-]+@[a-zA-Z0-9.-]+\.[a-zA-Z]{2,}$`
(line 116 of the source), compiled to a deterministic matcher: the character
classes exclude `@`, so the split is at the unique `@`; the top-level-domain
part excludes `.`, so the required dot is the last dot after the `@`. -/
def matchEmail (s : Str) : Bool :=
  let l := s.takeWhile (fun c => c != 64)
  let r := s.dropWhile (fun c => c != 64)
  let rest := r.tail
  let t := (rest.reverse.takeWhile (fun c => c != 46)).reverse
  let dPart := rest.reverse.dropWhile (fun c => c != 46)
  !r.isEmpty && !l.isEmpty && l.all isLocalC && rest.all (fun c => c != 64) &&
    !dPart.isEmpty && !dPart.tail.isEmpty && dPart.tail.reverse.all isDomainC &&
    t.all isAlphaC && decide (2 ≤ t.length)

/-- `validate_email` (source lines 103-117): `False` on an empty string,
otherwise the anchored regex match on the stripped string. -/
def validate_email (email : Str) : Bool :=
  if email = [] then false else matchEmail (strip email)

example : validate_email (S "a@b.com") = true := by decide
example : validate_email (S "  a@b.co  ") = true := by decide
example : validate_email (S "") = false := by decide
example : validate_email (S "a@b") = false := by decide
example : validate_email (S "a@b.c") = false := by decide
example : validate_email (S "ab.com") = false := by decide
example : validate_email (S "a@b@c.com") = false := by decide
example : validate_email (S "first.last+tag%x@mail-host.co.uk") = true := by decide
example : validate_email (S "a@.com") = false := by decide

/-- Python `s.replace(q, '')` for a one-character string `q`. -/
def removeChar (q : Nat) (s : Str) : Str := s.filter (fun c => c != q)

/-- Python `s.replace(', ', '')`: left-to-right, non-overlapping removal of
the two-code-point sequence comma+space. -/
def removeCS : Str → Str
  | [] => []
  | [c] => [c]
  | c :: d :: cs => if c = 44 ∧ d = 32 then removeCS cs else c :: removeCS (d :: cs)

/-- The `quotes_to_remove` loop of `clean_tags` (source lines 66-68).
The list literal on line 66 parses in Python as
`['"', "'", '"', '"', ', ']`: two distinct code points, `"` (34) and
`'` (39), plus the two-character sequence `", "`; each is removed from the
string in that order. -/
def stripQuotes (s : Str) : Str :=
  removeCS (removeChar 34 (removeChar 34 (removeChar 39 (removeChar 34 s))))

/-- A character matched by the `re.split('[,;|]', ...)` delimiter class. -/
def isSep (c : Nat) : Bool := c == 44 || c == 59 || c == 124

/-- Python `re.split('[,;|]', s)`: split at every delimiter occurrence,
keeping empty segments. -/
def splitSeps : Str → List Str
  | [] => [[]]
  | c :: cs =>
    if isSep c then [] :: splitSeps cs
    else
      match splitSeps cs with
      | [] => [[c]]
      | t :: ts => (c :: t) :: ts

/-- The per-segment cleanup `' '.join(tag.split())` of `clean_tags`. -/
def cleanSeg (t : Str) : Str := joinWith [32] (splitWS t)

/-- The `cleaned_tags` list built by the loop in `clean_tags`
(source lines 74-80): cleaned segments, empty ones discarded. -/
def survivors (s : Str) : List Str :=
  ((splitSeps (stripQuotes (strip s))).map cleanSeg).filter (fun w => !w.isEmpty)

/-- `clean_tags` (source lines 49-86). The second component records whether
`self.stats['tags_cleaned']` was incremented during the call (line 82-83):
true exactly when the `cleaned_tags` list is non-empty. -/
def clean_tags (s : Str) : Str × Bool :=
  if s = [] then ([], false)
  else (joinWith [44, 32] (survivors s), !(survivors s).isEmpty)

/-- `clean_name` (source lines 88-101): `'' `on empty input, otherwise
`' '.join(name.split())`. -/
def clean_name (s : Str) : Str := if s = [] then [] else joinWith [32] (splitWS s)

example : clean_tags (S "VIP;'New'") = (S "VIP, New", true) := by decide
example : clean_tags (S ",;|''") = ([], false) := by decide
example : clean_tags (S "  tag1 , tag2 ") = (S "tag1 tag2", true) := by decide
example : clean_tags (S "a,b") = (S "a, b", true) := by decide
example : clean_tags (S "a, b") = (S "ab", true) := by decide
example : clean_name (S "  Jane   Q.   Public ") = S "Jane Q. Public" := by decide
example : clean_name (S "") = S "" := by decide

/-- Python `s.split(', ')` (used on the cleaned tag string in
`analyze_input`, line 155). -/
def splitCS : Str → List Str
  | [] => [[]]
  | [c] => [[c]]
  | c :: d :: cs =>
    if c = 44 ∧ d = 32 then [] :: splitCS cs
    else
      match splitCS (d :: cs) with
      | [] => [[c]]
      | t :: ts => (c :: t) :: ts

/-- One `collections.Counter` increment: `counter[k] += 1`. -/
def bump (cnt : List (Str × Nat)) (k : Str) : List (Str × Nat) :=
  match cnt.find? (fun p => p.1 == k) with
  | some _ => cnt.map (fun p => if p.1 == k then (p.1, p.2 + 1) else p)
  | none => cnt ++ [(k, 1)]

/-- The `self.stats` dictionary (source lines 40-47). -/
structure Stats where
  total_rows : Nat
  processed : Nat
  skipped : Nat
  duplicates : Nat
  invalid_emails : Nat
  tags_cleaned : Nat
deriving Repr, DecidableEq

/-- `self.stats` right after `__init__`: every counter zero. -/
def initStats : Stats := ⟨0, 0, 0, 0, 0, 0⟩

/-- One parsed CSV row, as `csv.DictReader` yields it: a column-name to
value mapping. -/
abbrev Row := List (Str × Str)

/-- Python `row.get(k, '')`. -/
def getCol (row : Row) (k : Str) : Str :=
  match row.find? (fun p => p.1 == k) with
  | some p => p.2
  | none => []

/-- The state mutated by the row loop of `analyze_input`
(source lines 125-126, 144-159): `self.stats`, `emails_seen`,
`tags_counter`. -/
structure AnalyzeState where
  stats : Stats
  emails_seen : List Str
  tags_counter : List (Str × Nat)
deriving Repr, DecidableEq

/-- One iteration of the `for row in reader` loop of `analyze_input`
(source lines 144-159). -/
def analyzeStep (st : AnalyzeState) (row : Row) : AnalyzeState :=
  let st := { st with stats := { st.stats with total_rows := st.stats.total_rows + 1 } }
  let email := lower (strip (getCol row (S "Email Address")))
  if email ≠ [] ∧ validate_email email = true then
    let st := { st with emails_seen := st.emails_seen ++ [email] }
    let tags := strip (getCol row (S "TAGS"))
    if tags ≠ [] then
      let p := clean_tags tags
      let st :=
        if p.2 then { st with stats := { st.stats with tags_cleaned := st.stats.tags_cleaned + 1 } }
        else st
      { st with tags_counter := (((splitCS p.1).filter (fun t => !t.isEmpty))).foldl bump st.tags_counter }
    else st
  else if email ≠ [] then
    { st with stats := { st.stats with invalid_emails := st.stats.invalid_emails + 1 } }
  else st

/-- `analyze_input` (source lines 119-180), restricted to its effect on the
run state: the row loop from empty `emails_seen` / `tags_counter`, then the
duplicate count `len({email: count for ... if count > 1})`
(lines 162-164). Printing is omitted. -/
def analyze_input (rows : List Row) (stats0 : Stats) : AnalyzeState :=
  let st := rows.foldl analyzeStep ⟨stats0, [], []⟩
  { st with stats := { st.stats with duplicates :=
      ((st.emails_seen.dedup).filter (fun e => st.emails_seen.count e > 1)).length } }

/-- The source-column name that `convert` reads the email from
(source lines 204-215): `'Email'` when that column exists, else
`'Email Address'`. -/
def emailCol (hdr : List Str) : Str :=
  if S "Email" ∈ hdr then S "Email" else S "Email Address"

/-- The source-column name that `convert` reads the tags from
(source lines 204-215): `'Tags'` when that column exists, else `'TAGS'`. -/
def tagsCol (hdr : List Str) : Str :=
  if S "Tags" ∈ hdr then S "Tags" else S "TAGS"

/-- One output record, as written by `csv.DictWriter` in `convert`
(source lines 240-247). -/
structure OutRow where
  email : Str
  first_name : Str
  last_name : Str
  tags : Str
deriving Repr, DecidableEq

/-- The state mutated by the row loop of `convert`: `self.stats`,
`emails_processed`, and the rows written to the output file. -/
structure ConvertState where
  stats : Stats
  emails_processed : List Str
  output : List OutRow
deriving Repr, DecidableEq

/-- One iteration of the `for row in reader` loop of `convert`
(source lines 223-248). -/
def convertStep (hdr : List Str) (removeDuplicates : Bool) (st : ConvertState) (row : Row) :
    ConvertState :=
  let email := strip (getCol row (emailCol hdr))
  if email = [] ∨ validate_email email = false then
    { st with stats := { st.stats with skipped := st.stats.skipped + 1 } }
  else
    let emailLower := lower email
    if removeDuplicates = true ∧ emailLower ∈ st.emails_processed then
      { st with stats := { st.stats with skipped := st.stats.skipped + 1 } }
    else
      let st := { st with emails_processed := st.emails_processed ++ [emailLower] }
      let p := clean_tags (getCol row (tagsCol hdr))
      let st :=
        if p.2 then { st with stats := { st.stats with tags_cleaned := st.stats.tags_cleaned + 1 } }
        else st
      let r : OutRow :=
        ⟨email, clean_name (getCol row (S "First Name")),
          clean_name (getCol row (S "Last Name")), p.1⟩
      { st with output := st.output ++ [r],
                stats := { st.stats with processed := st.stats.processed + 1 } }

/-- `convert` (source lines 182-256), restricted to its effect on the run
state: the row loop from an empty `emails_processed` set and an empty
output file, starting from the given `self.stats`. -/
def convert (hdr : List Str) (removeDuplicates : Bool) (rows : List Row) (stats0 : Stats) :
    ConvertState :=
  rows.foldl (convertStep hdr removeDuplicates) ⟨stats0, [], []⟩

/-- The spec's end-to-end example: rows `a@b.com / bad-email / a@b.com`
with duplicate removal produce exactly one output row with tags
`VIP, New`. -/
example :
    (convert [S "Email Address", S "TAGS"] true
      [[(S "Email Address", S "a@b.com"), (S "TAGS", S "VIP;'New'")],
       [(S "Email Address", S "bad-email"), (S "TAGS", S "x")],
       [(S "Email Address", S "a@b.com"), (S "TAGS", S "Other")]] initStats).output =
      [⟨S "a@b.com", [], [], S "VIP, New"⟩] := by decide

example :
    (convert [S "Email Address", S "TAGS"] true
      [[(S "Email Address", S "a@b.com"), (S "TAGS", S "VIP;'New'")],
       [(S "Email Address", S "bad-email"), (S "TAGS", S "x")],
       [(S "Email Address", S "a@b.com"), (S "TAGS", S "Other")]] initStats).stats =
      ⟨0, 1, 2, 0, 0, 1⟩ := by decide

/-- `len(emails_seen)`, the "Valid emails" figure `analyze_input` reports
(source line 168), over a fresh run. -/
def analysisValidCount (rows : List Row) : Nat :=
  (analyze_input rows initStats).emails_seen.length

/-- `self.stats['invalid_emails']`, the "Invalid emails" figure
`analyze_input` reports (source line 169), over a fresh run. -/
def analysisInvalidCount (rows : List Row) : Nat :=
  (analyze_input rows initStats).stats.invalid_emails

/-- Whether `convert` accepts the row's email as syntactically valid, i.e.
does not skip the row at source lines 226-229. -/
def convAccepts (hdr : List Str) (row : Row) : Bool :=
  let e := strip (getCol row (emailCol hdr))
  !e.isEmpty && validate_email e

/-- Whether `convert` skips the row for an email that is present (non-empty
after stripping) but fails validation. -/
def convSkipsNonemptyInvalid (hdr : List Str) (row : Row) : Bool :=
  let e := strip (getCol row (emailCol hdr))
  !e.isEmpty && !validate_email e

/-- The quote characters the specification says tag cleaning strips:
straight single and double quotes and the left/right curly single and
double quote variants (U+2018, U+2019, U+201C, U+201D). -/
def specQuoteSet : List Nat := [34, 39, 8216, 8217, 8220, 8221]

/-! ### Lowercasing and validation

`analyze_input` validates the lowercased email while `convert` validates
the original-case email. On ASCII strings `str.lower()` is the `A`-`Z`
rule and cannot change the verdict of `validate_email`; on non-ASCII
strings it can (U+212A lowers to the ASCII letter `k`), so the lemmas
below are stated for the ASCII case only. -/

lemma isEmpty_map_eq (f : Nat → Nat) (l : List Nat) : (l.map f).isEmpty = l.isEmpty := by
  cases l <;> rfl

lemma tail_map_eq (f : Nat → Nat) (l : List Nat) : (l.map f).tail = l.tail.map f := by
  cases l <;> rfl

lemma bne_asciiLowerC_64 : ((fun c : Nat => c != 64) ∘ asciiLowerC) = (fun c : Nat => c != 64) := by
  funext c
  unfold asciiLowerC
  simp only [Function.comp]
  split
  · next h => rw [Bool.eq_iff_iff]; simp; omega
  · rfl

lemma bne_asciiLowerC_46 : ((fun c : Nat => c != 46) ∘ asciiLowerC) = (fun c : Nat => c != 46) := by
  funext c
  unfold asciiLowerC
  simp only [Function.comp]
  split
  · next h => rw [Bool.eq_iff_iff]; simp; omega
  · rfl

lemma isWS_asciiLowerC : (isWS ∘ asciiLowerC) = isWS := by
  funext c
  unfold asciiLowerC isWS
  simp only [Function.comp]
  split
  · next h => rw [Bool.eq_iff_iff]; simp; omega
  · rfl

lemma isAlphaC_asciiLowerC : (isAlphaC ∘ asciiLowerC) = isAlphaC := by
  funext c
  unfold asciiLowerC isAlphaC
  simp only [Function.comp]
  split
  · next h => rw [Bool.eq_iff_iff]; simp; omega
  · rfl

lemma isLocalC_asciiLowerC : (isLocalC ∘ asciiLowerC) = isLocalC := by
  funext c
  unfold isLocalC isAlphaC isDigitC asciiLowerC
  simp only [Function.comp]
  split
  · next h => rw [Bool.eq_iff_iff]; simp; omega
  · rfl

lemma isDomainC_asciiLowerC : (isDomainC ∘ asciiLowerC) = isDomainC := by
  funext c
  unfold isDomainC isAlphaC isDigitC asciiLowerC
  simp only [Function.comp]
  split
  · next h => rw [Bool.eq_iff_iff]; simp; omega
  · rfl

lemma matchEmail_asciiMap (s : Str) : matchEmail (s.map asciiLowerC) = matchEmail s := by
  unfold matchEmail
  simp only [List.takeWhile_map, List.dropWhile_map, bne_asciiLowerC_64, bne_asciiLowerC_46,
    isEmpty_map_eq, tail_map_eq, ← List.map_reverse, List.all_map, isLocalC_asciiLowerC,
    isDomainC_asciiLowerC, isAlphaC_asciiLowerC, List.length_map]

lemma strip_asciiMap (s : Str) : strip (s.map asciiLowerC) = (strip s).map asciiLowerC := by
  unfold strip
  simp only [List.dropWhile_map, isWS_asciiLowerC, ← List.map_reverse]

lemma charLower_ascii {c : Nat} (h : c < 128) : charLower c = [asciiLowerC c] := by
  unfold charLower
  rw [if_pos h]

set_option maxRecDepth 16384 in
lemma charLower_ne_nil (c : Nat) : charLower c ≠ [] := by
  unfold charLower
  split
  · simp
  · split
    · next p hp =>
      have hm := List.mem_of_find?_eq_some hp
      have hall : lowerTable.all (fun q => !q.2.isEmpty) = true := by decide
      rw [List.all_eq_true] at hall
      have := hall p hm
      simp only [Bool.not_eq_true'] at this
      exact (List.isEmpty_eq_false.mp this)
    · simp

lemma lower_ascii : ∀ s : Str, s.all (fun c => decide (c < 128)) = true →
    lower s = s.map asciiLowerC
  | [], _ => rfl
  | c :: cs, h => by
    simp only [List.all_cons, Bool.and_eq_true, decide_eq_true_eq] at h
    show charLower c ++ lower cs = (c :: cs).map asciiLowerC
    rw [charLower_ascii h.1, List.map_cons, lower_ascii cs h.2, List.singleton_append]

lemma lower_eq_nil (s : Str) : lower s = [] ↔ s = [] := by
  cases s with
  | nil => simp [lower]
  | cons c cs =>
    constructor
    · intro h
      have h' : charLower c ++ lower cs = [] := h
      exact absurd (List.append_eq_nil.mp h').1 (charLower_ne_nil c)
    · intro h
      simp at h

lemma validate_email_lower_ascii (s : Str) (h : s.all (fun c => decide (c < 128)) = true) :
    validate_email (lower s) = validate_email s := by
  rw [lower_ascii s h]
  unfold validate_email
  by_cases hnil : s = []
  · subst hnil; rfl
  · rw [if_neg ((not_congr List.map_eq_nil_iff).mpr hnil), if_neg hnil, strip_asciiMap,
      matchEmail_asciiMap]

end MC2CK

namespace MC2CK

/-- C2: the analysis pass is NOT free of side effects on state the
conversion pass consumes. On a one-row file with a valid email and a
non-empty tag cell, `analyze_input` raises `self.stats['tags_cleaned']`
(through its `clean_tags` call) from 0 to 1, and the `convert` run that
follows it ends with `tags_cleaned = 2` where a fresh `convert` run ends
with 1 — so the "Tags cleaned" figure `convert` reports depends on the
analysis pass having run. -/
theorem c2_analysis_mutates_convert_stats :
    (analyze_input [[(S "Email Address", S "a@b.com"), (S "TAGS", S "VIP")]]
        initStats).stats.tags_cleaned = 1 ∧
    (convert [S "Email Address", S "TAGS"] true
        [[(S "Email Address", S "a@b.com"), (S "TAGS", S "VIP")]]
        (analyze_input [[(S "Email Address", S "a@b.com"), (S "TAGS", S "VIP")]]
          initStats).stats).stats.tags_cleaned = 2 ∧
    (convert [S "Email Address", S "TAGS"] true
        [[(S "Email Address", S "a@b.com"), (S "TAGS", S "VIP")]]
        initStats).stats.tags_cleaned = 1 := by decide

/-- C5: tag cleaning is NOT idempotent in the code as written. Cleaning
`"a,b"` yields `"a, b"`, but cleaning that result yields `"ab"`, because
the corrupted `quotes_to_remove` literal (source line 66) contains the
two-character sequence `", "`, which deletes the separators the first pass
inserted. -/
theorem c5_clean_tags_not_idempotent :
    (clean_tags (S "a,b")).1 = S "a, b" ∧
    (clean_tags ((clean_tags (S "a,b")).1)).1 = S "ab" ∧
    (clean_tags ((clean_tags (S "a,b")).1)).1 ≠ (clean_tags (S "a,b")).1 := by decide

/-- C6: curly quotes from the specification's stripped set survive tag
cleaning. On the input `“VIP”` (U+201C, V, I, P, U+201D) the cleaner
returns the string unchanged, so the output contains U+201C, a member of
the stripped set — the corrupted `quotes_to_remove` literal (source line
66) holds only straight quotes and the sequence `", "`. -/
theorem c6_curly_quotes_survive :
    (clean_tags ([8220] ++ S "VIP" ++ [8221])).1 = [8220] ++ S "VIP" ++ [8221] ∧
    8220 ∈ specQuoteSet ∧
    8220 ∈ (clean_tags ([8220] ++ S "VIP" ++ [8221])).1 := by decide

/-- C1 fails as stated: over the file with header `['Email']` and rows
`Email = "a@b.com"` and `Email = "x"`, the analysis pass (which always
reads the `'Email Address'` column) counts 0 valid and 0 invalid emails,
while the conversion pass (which resolves the email column to `'Email'`)
accepts 1 row as valid and skips 1 row for an invalid email. -/
theorem c1_counterexample :
    ¬ (analysisValidCount [[(S "Email", S "a@b.com")], [(S "Email", S "x")]] =
        ([[(S "Email", S "a@b.com")], [(S "Email", S "x")]].filter
          (convAccepts [S "Email"])).length ∧
       analysisInvalidCount [[(S "Email", S "a@b.com")], [(S "Email", S "x")]] =
        ([[(S "Email", S "a@b.com")], [(S "Email", S "x")]].filter
          (convSkipsNonemptyInvalid [S "Email"])).length) := by decide

/-- Whether the row enters the valid branch of `analyze_input`
(source line 148). -/
def analysisRowValid (row : Row) : Bool :=
  let e := lower (strip (getCol row (S "Email Address")))
  !e.isEmpty && validate_email e

/-- Whether the row enters the `elif email:` branch of `analyze_input`
(source lines 158-159). -/
def analysisRowInvalid (row : Row) : Bool :=
  let e := lower (strip (getCol row (S "Email Address")))
  !e.isEmpty && !validate_email e

lemma analyzeStep_counts (st : AnalyzeState) (row : Row) :
    (analyzeStep st row).emails_seen.length
      = st.emails_seen.length + (if analysisRowValid row then 1 else 0) ∧
    (analyzeStep st row).stats.invalid_emails
      = st.stats.invalid_emails + (if analysisRowInvalid row then 1 else 0) := by
  unfold analyzeStep analysisRowValid analysisRowInvalid
  by_cases h1 : lower (strip (getCol row (S "Email Address"))) = []
  · simp [h1]
  · by_cases h2 : validate_email (lower (strip (getCol row (S "Email Address")))) = true
    · simp only [h1, h2, List.isEmpty_eq_false, ne_eq, not_false_eq_true, and_self, if_true,
        Bool.and_self, if_pos]
      split
      · split <;> simp [h1, h2, List.isEmpty_eq_false]
      · simp [h1, h2, List.isEmpty_eq_false]
    · simp [h1, h2, List.isEmpty_eq_false]

lemma analyze_foldl_counts (rows : List Row) (st : AnalyzeState) :
    (rows.foldl analyzeStep st).emails_seen.length
      = st.emails_seen.length + (rows.filter analysisRowValid).length ∧
    (rows.foldl analyzeStep st).stats.invalid_emails
      = st.stats.invalid_emails + (rows.filter analysisRowInvalid).length := by
  induction rows generalizing st with
  | nil => simp
  | cons r rs ih =>
    obtain ⟨h1, h2⟩ := analyzeStep_counts st r
    obtain ⟨ih1, ih2⟩ := ih (analyzeStep st r)
    simp only [List.foldl_cons, List.filter_cons]
    constructor
    · rw [ih1, h1]; split <;> (simp; try omega)
    · rw [ih2, h2]; split <;> (simp; try omega)

lemma isEmpty_lower (s : Str) : (lower s).isEmpty = s.isEmpty := by
  rw [Bool.eq_iff_iff, List.isEmpty_iff, List.isEmpty_iff]
  exact lower_eq_nil s

lemma mem_strip {a : Nat} {s : Str} (h : a ∈ strip s) : a ∈ s := by
  unfold strip at h
  rw [List.mem_reverse] at h
  have h2 := (List.dropWhile_sublist _).subset h
  rw [List.mem_reverse] at h2
  exact (List.dropWhile_sublist _).subset h2

lemma all_strip {p : Nat → Bool} {s : Str} (h : s.all p = true) : (strip s).all p = true := by
  rw [List.all_eq_true] at h ⊢
  exact fun c hc => h c (mem_strip hc)

lemma analysisRowValid_eq_convAccepts (hdr : List Str) (h : S "Email" ∉ hdr) (row : Row)
    (hA : (getCol row (S "Email Address")).all (fun c => decide (c < 128)) = true) :
    analysisRowValid row = convAccepts hdr row := by
  unfold analysisRowValid convAccepts emailCol
  simp only [if_neg h,
    validate_email_lower_ascii (strip (getCol row (S "Email Address"))) (all_strip hA),
    isEmpty_lower]

lemma analysisRowInvalid_eq_convSkips (hdr : List Str) (h : S "Email" ∉ hdr) (row : Row)
    (hA : (getCol row (S "Email Address")).all (fun c => decide (c < 128)) = true) :
    analysisRowInvalid row = convSkipsNonemptyInvalid hdr row := by
  unfold analysisRowInvalid convSkipsNonemptyInvalid emailCol
  simp only [if_neg h,
    validate_email_lower_ascii (strip (getCol row (S "Email Address"))) (all_strip hA),
    isEmpty_lower]

/-- C1, amended: when the input file's header has no `'Email'` column — so
that the conversion pass, like the analysis pass, reads the email from
`'Email Address'` — and every row's email cell holds only ASCII code
points, the analysis pass's valid-email count equals the number of rows
whose email the conversion pass accepts as syntactically valid, and its
invalid-email count equals the number of rows the conversion pass skips
for an email that is non-empty but invalid (rows with a missing or empty
email are skipped by conversion yet counted by analysis as neither valid
nor invalid). The ASCII restriction is forced by the code: analysis
validates the lowercased email while conversion validates the
original-case email, and `str.lower()` maps some non-ASCII code points
(e.g. U+212A) to ASCII letters, making analysis accept an email that
conversion rejects. -/
theorem c1_counts_agree (hdr : List Str) (rows : List Row) (h : S "Email" ∉ hdr)
    (hA : ∀ row ∈ rows,
      (getCol row (S "Email Address")).all (fun c => decide (c < 128)) = true) :
    analysisValidCount rows = (rows.filter (convAccepts hdr)).length ∧
    analysisInvalidCount rows = (rows.filter (convSkipsNonemptyInvalid hdr)).length := by
  unfold analysisValidCount analysisInvalidCount analyze_input
  obtain ⟨h1, h2⟩ := analyze_foldl_counts rows ⟨initStats, [], []⟩
  rw [List.filter_congr (fun r hr => (analysisRowValid_eq_convAccepts hdr h r (hA r hr)).symm),
    List.filter_congr (fun r hr => (analysisRowInvalid_eq_convSkips hdr h r (hA r hr)).symm)]
  exact ⟨by simpa using h1, by simpa [initStats] using h2⟩

/-! ### Structure of `' '.join(s.split())`

The words `str.split()` returns are non-empty and whitespace-free, and
splitting a `' '`-join of such words returns exactly the words again.
These lemmas carry the name cleaner's idempotence and output shape. -/

/-- A list of words as `str.split()` produces them: each non-empty and free
of whitespace. -/
def goodWords (ws : List Str) : Prop :=
  ∀ w ∈ ws, w ≠ [] ∧ w.all (fun c => !isWS c) = true

lemma splitWS_cons2 (c d : Nat) (cs : Str) :
    splitWS (c :: d :: cs) =
      if isWS c then splitWS (d :: cs)
      else if isWS d then [c] :: splitWS cs
      else
        match splitWS (d :: cs) with
        | [] => [[c]]
        | w :: ws => (c :: w) :: ws := rfl

lemma splitWS_words : ∀ s : Str, goodWords (splitWS s)
  | [] => by simp [splitWS, goodWords]
  | [c] => by
    by_cases h : isWS c = true
    · simp [splitWS, h, goodWords]
    · simp only [Bool.not_eq_true] at h
      simp [splitWS, h, goodWords]
  | c :: d :: cs => by
    rw [splitWS_cons2]
    by_cases hc : isWS c = true
    · rw [if_pos hc]; exact splitWS_words (d :: cs)
    · rw [if_neg (by simp [hc])]
      simp only [Bool.not_eq_true] at hc
      by_cases hd : isWS d = true
      · rw [if_pos hd]
        intro w hw
        rw [List.mem_cons] at hw
        rcases hw with h | h
        · subst h; exact ⟨by simp, by simp [hc]⟩
        · exact splitWS_words cs w h
      · rw [if_neg hd]
        have ih := splitWS_words (d :: cs)
        cases hD : splitWS (d :: cs) with
        | nil =>
          intro w hw
          rw [List.mem_cons] at hw
          rcases hw with h | h
          · subst h; exact ⟨by simp, by simp [hc]⟩
          · simp at h
        | cons x xs =>
          intro w hw
          rw [List.mem_cons] at hw
          rcases hw with h | h
          · subst h
            obtain ⟨hx1, hx2⟩ := ih x (by rw [hD]; exact List.mem_cons_self x xs)
            exact ⟨by simp, by simp [List.all_cons, hc, hx2]⟩
          · exact ih w (by rw [hD]; exact List.mem_cons_of_mem x h)

lemma splitWS_single : ∀ w : Str, w ≠ [] → w.all (fun c => !isWS c) = true → splitWS w = [w]
  | [c], _, hall => by
    simp only [List.all_cons, List.all_nil, Bool.and_true, Bool.not_eq_true'] at hall
    simp [splitWS, hall]
  | c :: d :: cs, _, hall => by
    simp only [List.all_cons, Bool.and_eq_true, Bool.not_eq_true'] at hall
    obtain ⟨hc, hd, hcs⟩ := hall
    rw [splitWS_cons2, if_neg (by simp [hc]), if_neg (by simp [hd]),
      splitWS_single (d :: cs) (by simp) (by simp [List.all_cons, hd, hcs])]

lemma splitWS_word_space :
    ∀ w s : Str, w ≠ [] → w.all (fun c => !isWS c) = true →
      splitWS (w ++ 32 :: s) = w :: splitWS s
  | [c], s, _, hall => by
    simp only [List.all_cons, List.all_nil, Bool.and_true, Bool.not_eq_true'] at hall
    rw [List.singleton_append, splitWS_cons2, if_neg (by simp [hall]),
      if_pos (by simp [isWS])]
  | c :: d :: cs, s, _, hall => by
    simp only [List.all_cons, Bool.and_eq_true, Bool.not_eq_true'] at hall
    obtain ⟨hc, hd, hcs⟩ := hall
    have hrec := splitWS_word_space (d :: cs) s (by simp) (by simp [List.all_cons, hd, hcs])
    rw [List.cons_append] at hrec
    rw [List.cons_append, List.cons_append, splitWS_cons2, if_neg (by simp [hc]),
      if_neg (by simp [hd]), hrec]

lemma splitWS_joinWith :
    ∀ ws : List Str, goodWords ws → splitWS (joinWith [32] ws) = ws
  | [], _ => rfl
  | [w], hws => by
    unfold joinWith
    exact splitWS_single w (hws w (by simp)).1 (hws w (by simp)).2
  | w :: x :: ws, hws => by
    unfold joinWith
    have hw := hws w (by simp)
    have h32 : w ++ [32] ++ joinWith [32] (x :: ws) = w ++ 32 :: joinWith [32] (x :: ws) := by
      simp
    rw [h32, splitWS_word_space w _ hw.1 hw.2,
      splitWS_joinWith (x :: ws) (fun u hu => hws u (by simp [hu]))]

/-- `clean_name` applied to its own output returns it unchanged. -/
lemma clean_name_idem (s : Str) : clean_name (clean_name s) = clean_name s := by
  unfold clean_name
  by_cases h : s = []
  · simp [h]
  · rw [if_neg h]
    by_cases h2 : joinWith [32] (splitWS s) = []
    · simp [h2]
    · rw [if_neg h2, splitWS_joinWith (splitWS s) (splitWS_words s)]

/-- The pairwise relation "not both whitespace" used to state that a string
has no two adjacent whitespace characters. -/
def noTwoWS (a b : Nat) : Prop := isWS a = false ∨ isWS b = false

lemma chain_of_all_nonWS (w : Str) (h : w.all (fun c => !isWS c) = true) :
    List.Chain' noTwoWS w := by
  induction w with
  | nil => simp
  | cons a t ih =>
    simp only [List.all_cons, Bool.and_eq_true, Bool.not_eq_true'] at h
    cases t with
    | nil => simp
    | cons b t' =>
      rw [List.chain'_cons]
      exact ⟨Or.inl h.1, ih h.2⟩

lemma joinWith_head :
    ∀ ws : List Str, goodWords ws →
      ∀ c, (joinWith [32] ws).head? = some c → isWS c = false
  | [], _, c => by simp [joinWith]
  | [w], hws, c => by
    unfold joinWith
    intro hc
    have hm : c ∈ w := by
      cases w with
      | nil => simp at hc
      | cons a t => simp at hc; simp [hc]
    have := (hws w (by simp)).2
    rw [List.all_eq_true] at this
    simpa using this c hm
  | w :: x :: ws, hws, c => by
    unfold joinWith
    obtain ⟨hw1, hw2⟩ := hws w (by simp)
    cases w with
    | nil => exact absurd rfl hw1
    | cons a t =>
      intro hc
      simp only [List.cons_append, List.head?_cons, Option.some.injEq] at hc
      subst hc
      simp only [List.all_cons, Bool.and_eq_true, Bool.not_eq_true'] at hw2
      exact hw2.1

lemma joinWith_getLast :
    ∀ ws : List Str, goodWords ws →
      ∀ c, (joinWith [32] ws).getLast? = some c → isWS c = false
  | [], _, c => by simp [joinWith]
  | [w], hws, c => by
    unfold joinWith
    intro hc
    have hm : c ∈ w := List.mem_of_mem_getLast? hc
    have := (hws w (by simp)).2
    rw [List.all_eq_true] at this
    simpa using this c hm
  | w :: x :: ws, hws, c => by
    unfold joinWith
    intro hc
    have hxne : joinWith [32] (x :: ws) ≠ [] := by
      cases ws with
      | nil => exact (hws x (by simp)).1
      | cons y ys =>
        unfold joinWith
        have := (hws x (by simp)).1
        cases x with
        | nil => exact absurd rfl this
        | cons a t => simp
    rw [List.append_assoc, List.getLast?_append_of_ne_nil _ (by simp [hxne])] at hc
    have : ([32] ++ joinWith [32] (x :: ws)).getLast? = (joinWith [32] (x :: ws)).getLast? := by
      cases hJ : joinWith [32] (x :: ws) with
      | nil => exact absurd hJ hxne
      | cons b t => simp [List.getLast?_append_of_ne_nil]
    rw [this] at hc
    exact joinWith_getLast (x :: ws) (fun u hu => hws u (by simp [hu])) c hc

lemma joinWith_chain :
    ∀ ws : List Str, goodWords ws → List.Chain' noTwoWS (joinWith [32] ws)
  | [], _ => by simp [joinWith]
  | [w], hws => by
    unfold joinWith
    exact chain_of_all_nonWS w (hws w (by simp)).2
  | w :: x :: ws, hws => by
    unfold joinWith
    obtain ⟨hw1, hw2⟩ := hws w (by simp)
    have hrest : goodWords (x :: ws) := fun u hu => hws u (by simp [hu])
    have ihc := joinWith_chain (x :: ws) hrest
    rw [List.append_assoc, List.singleton_append]
    refine List.Chain'.append (chain_of_all_nonWS w hw2) ?_ ?_
    · rw [List.chain'_cons']
      refine ⟨?_, ihc⟩
      intro h hh
      exact Or.inr (joinWith_head (x :: ws) hrest h hh)
    · intro a ha b hb
      refine Or.inl ?_
      have hm : a ∈ w := List.mem_of_mem_getLast? ha
      have := hw2
      rw [List.all_eq_true] at this
      simpa using this a hm

/-- C10: `clean_name` is idempotent, and its output never starts or ends
with whitespace and never contains two adjacent whitespace characters. -/
theorem c10_clean_name_idempotent_and_shape (s : Str) :
    clean_name (clean_name s) = clean_name s ∧
    (clean_name s).head?.all (fun c => !isWS c) = true ∧
    (clean_name s).getLast?.all (fun c => !isWS c) = true ∧
    List.Chain' noTwoWS (clean_name s) := by
  refine ⟨clean_name_idem s, ?_, ?_, ?_⟩
  · cases hh : (clean_name s).head? with
    | none => rfl
    | some c =>
      have : isWS c = false := by
        revert hh
        unfold clean_name
        by_cases h : s = []
        · simp [h]
        · rw [if_neg h]; exact joinWith_head (splitWS s) (splitWS_words s) c
      simp [Option.all, this]
  · cases hh : (clean_name s).getLast? with
    | none => rfl
    | some c =>
      have : isWS c = false := by
        revert hh
        unfold clean_name
        by_cases h : s = []
        · simp [h]
        · rw [if_neg h]; exact joinWith_getLast (splitWS s) (splitWS_words s) c
      simp [Option.all, this]
  · unfold clean_name
    by_cases h : s = []
    · simp [h]
    · rw [if_neg h]; exact joinWith_chain (splitWS s) (splitWS_words s)

/-! ### The tags-cleaned counter (C8) -/

lemma mem_removeChar {a q : Nat} {s : Str} (h : a ∈ removeChar q s) : a ∈ s ∧ a ≠ q := by
  unfold removeChar at h
  rw [List.mem_filter] at h
  exact ⟨h.1, by simpa using h.2⟩

lemma mem_removeCS {a : Nat} : ∀ {s : Str}, a ∈ removeCS s → a ∈ s
  | [], h => h
  | [c], h => h
  | c :: d :: cs, h => by
    rw [removeCS] at h
    split at h
    · exact List.mem_cons_of_mem c (List.mem_cons_of_mem d (mem_removeCS h))
    · rw [List.mem_cons] at h
      rcases h with h | h
      · simp [h]
      · exact List.mem_cons_of_mem c (mem_removeCS h)

lemma removeCS_no_space : ∀ s : Str, (∀ c ∈ s, c ≠ 32) → removeCS s = s
  | [], _ => rfl
  | [c], _ => rfl
  | c :: d :: cs, h => by
    rw [removeCS, if_neg (by push_neg; intro _; exact h d (by simp))]
    rw [removeCS_no_space (d :: cs) (fun x hx => h x (List.mem_cons_of_mem c hx))]

lemma splitSeps_allSep : ∀ s : Str, (∀ c ∈ s, isSep c = true) → ∀ w ∈ splitSeps s, w = []
  | [], _, w, hw => by simpa [splitSeps] using hw
  | c :: cs, h, w, hw => by
    rw [splitSeps, if_pos (h c (by simp))] at hw
    rw [List.mem_cons] at hw
    rcases hw with h' | h'
    · exact h'
    · exact splitSeps_allSep cs (fun x hx => h x (List.mem_cons_of_mem c hx)) w h'

lemma joinWith_ne_nil (sep : Str) :
    ∀ ws : List Str, ws ≠ [] → (∀ w ∈ ws, w ≠ []) → joinWith sep ws ≠ []
  | [w], _, hws => by
    unfold joinWith
    exact hws w (by simp)
  | w :: x :: ws, _, hws => by
    unfold joinWith
    have := hws w (by simp)
    cases w with
    | nil => exact absurd rfl this
    | cons a t => simp

/-- C8: per call, `clean_tags` reports exactly one increment of the
tags-cleaned counter when the list of surviving cleaned segments is
non-empty — equivalently when its output string is non-empty — and no
increment otherwise; a tag string consisting solely of the separators
`, ; |` and the stripped quote characters `' "` cleans to the empty string
with no increment. -/
theorem c8_tags_cleaned_counter (s : Str) :
    (clean_tags s).2 = !(survivors s).isEmpty ∧
    ((clean_tags s).2 = true ↔ (clean_tags s).1 ≠ []) ∧
    (s.all (fun c => isSep c || c == 39 || c == 34) = true → clean_tags s = ([], false)) := by
  refine ⟨?_, ?_, ?_⟩
  · unfold clean_tags
    by_cases h : s = []
    · subst h; rfl
    · rw [if_neg h]
  · unfold clean_tags
    by_cases h : s = []
    · subst h; simp
    · rw [if_neg h]
      cases hS : survivors s with
      | nil => simp [hS, joinWith]
      | cons w ws =>
        simp only [List.isEmpty_cons, Bool.not_false, true_iff, ne_eq]
        apply joinWith_ne_nil [44, 32] (w :: ws) (by simp)
        intro u hu
        rw [← hS] at hu
        unfold survivors at hu
        rw [List.mem_filter] at hu
        simpa using hu.2
  · intro hall
    rw [List.all_eq_true] at hall
    have hsep : ∀ c ∈ stripQuotes (strip s), isSep c = true := by
      intro c hc
      unfold stripQuotes at hc
      have h1 := mem_removeCS hc
      have h2 := mem_removeChar h1
      have h3 := mem_removeChar h2.1
      have h4 := mem_removeChar h3.1
      have h5 := mem_removeChar h4.1
      have hmem := mem_strip h5.1
      have := hall c hmem
      simp only [Bool.or_eq_true, beq_iff_eq] at this
      rcases this with (h | h) | h
      · exact h
      · exact absurd h h4.2
      · exact absurd h h2.2
    have hsurv : survivors s = [] := by
      unfold survivors
      rw [List.filter_eq_nil_iff]
      intro w hw
      rw [List.mem_map] at hw
      obtain ⟨seg, hseg, hw⟩ := hw
      have : seg = [] := splitSeps_allSep _ hsep seg hseg
      subst this
      subst hw
      simp [cleanSeg, splitWS, joinWith]
    unfold clean_tags
    by_cases h : s = []
    · subst h; rfl
    · rw [if_neg h, hsurv]; rfl

/-- Witness for `c8_tags_cleaned_counter`: the spec's example string
`",;|''"` cleans to the empty string without incrementing the counter. -/
theorem c8_witness : clean_tags (S ",;|''") = ([], false) :=
  (c8_tags_cleaned_counter (S ",;|''")).2.2 (by decide)

/-! ### Characterization of the email validator (C4) -/

/-- Modelled from the spec's words: the trimmed string decomposes as
`local-part @ domain-labels . tld`, with a non-empty local part over
`[a-zA-Z0-9._%+-]`, a non-empty domain over `[a-zA-Z0-9.-]`, and a final
top-level-domain label of at least 2 alphabetic characters running to the
end of the string. -/
def emailShape (s : Str) : Prop :=
  ∃ l d t : Str, s = l ++ 64 :: (d ++ 46 :: t) ∧
    l ≠ [] ∧ l.all isLocalC = true ∧ d ≠ [] ∧ d.all isDomainC = true ∧
    t.all isAlphaC = true ∧ 2 ≤ t.length

lemma takeWhile_append_eq (p : Nat → Bool) :
    ∀ (xs : Str) (y : Nat) (zs : Str), xs.all p = true → p y = false →
      (xs ++ y :: zs).takeWhile p = xs ∧ (xs ++ y :: zs).dropWhile p = y :: zs
  | [], y, zs, _, hy => by simp [List.takeWhile_cons, List.dropWhile_cons, hy]
  | x :: xs, y, zs, hall, hy => by
    simp only [List.all_cons, Bool.and_eq_true] at hall
    have ih := takeWhile_append_eq p xs y zs hall.2 hy
    simp [List.takeWhile_cons, List.dropWhile_cons, hall.1, ih.1, ih.2]

lemma isLocalC_ne64 (c : Nat) (h : isLocalC c = true) : c ≠ 64 := by
  unfold isLocalC isAlphaC isDigitC at h
  simp at h
  omega

lemma isDomainC_ne64 (c : Nat) (h : isDomainC c = true) : c ≠ 64 := by
  unfold isDomainC isAlphaC isDigitC at h
  simp at h
  omega

lemma isAlphaC_ne64 (c : Nat) (h : isAlphaC c = true) : c ≠ 64 := by
  unfold isAlphaC at h
  simp at h
  omega

lemma isAlphaC_ne46 (c : Nat) (h : isAlphaC c = true) : c ≠ 46 := by
  unfold isAlphaC at h
  simp at h
  omega

lemma emailShape_of_matchEmail {s : Str} (hm : matchEmail s = true) : emailShape s := by
  unfold matchEmail at hm
  cases hr : s.dropWhile (fun c => c != 64) with
  | nil => rw [hr] at hm; simp at hm
  | cons a rest =>
    rw [hr] at hm
    simp only [List.tail_cons, List.isEmpty_cons, Bool.not_false, Bool.true_and] at hm
    have ha : a = 64 := by
      have h0 := List.head?_dropWhile_not (fun c => c != 64) s
      rw [hr] at h0
      simpa using h0
    cases hd : rest.reverse.dropWhile (fun c => c != 46) with
    | nil => rw [hd] at hm; simp at hm
    | cons b dRev =>
      rw [hd] at hm
      have hb : b = 46 := by
        have h0 := List.head?_dropWhile_not (fun c => c != 46) rest.reverse
        rw [hd] at h0
        simpa using h0
      simp only [List.isEmpty_cons, Bool.not_false, Bool.true_and, List.tail_cons,
        Bool.and_eq_true, Bool.not_eq_true', List.isEmpty_eq_false, decide_eq_true_eq] at hm
      obtain ⟨⟨⟨⟨⟨⟨⟨hl1, hl2⟩, hrest⟩, -⟩, hdRev⟩, hdom⟩, halpha⟩, hlen⟩ := hm
      refine ⟨s.takeWhile (fun c => c != 64), dRev.reverse,
        (rest.reverse.takeWhile (fun c => c != 46)).reverse, ?_, hl1, hl2,
        by simpa using hdRev, hdom, halpha, hlen⟩
      have hs : s = s.takeWhile (fun c => c != 64) ++ 64 :: rest := by
        have h1 := List.takeWhile_append_dropWhile (p := fun c => c != 64) (l := s)
        rw [hr, ha] at h1
        exact h1.symm
      have hsplit : rest = dRev.reverse ++ 46 ::
          (rest.reverse.takeWhile (fun c => c != 46)).reverse := by
        have h1 := List.takeWhile_append_dropWhile (p := fun c => c != 46) (l := rest.reverse)
        rw [hd, hb] at h1
        have h2 := congrArg List.reverse h1.symm
        simpa [List.reverse_append] using h2
      exact hs.trans (congrArg (fun z => s.takeWhile (fun c => c != 64) ++ 64 :: z) hsplit)

lemma matchEmail_of_emailShape {s : Str} (h : emailShape s) : matchEmail s = true := by
  obtain ⟨l, d, t, hs, hl1, hl2, hd1, hd2, ht1, ht2⟩ := h
  have hl64 : l.all (fun c => c != 64) = true := by
    rw [List.all_eq_true] at hl2 ⊢
    intro c hc
    simpa using isLocalC_ne64 c (hl2 c hc)
  have htrev : t.reverse.all (fun c => c != 46) = true := by
    rw [List.all_eq_true] at ht1 ⊢
    intro c hc
    rw [List.mem_reverse] at hc
    simpa using isAlphaC_ne46 c (ht1 c hc)
  have hrestAll : (d ++ 46 :: t).all (fun c => c != 64) = true := by
    rw [List.all_eq_true]
    intro c hc
    rw [List.mem_append, List.mem_cons] at hc
    rw [List.all_eq_true] at hd2 ht1
    rcases hc with hc | hc | hc
    · simpa using isDomainC_ne64 c (hd2 c hc)
    · subst hc; simp
    · simpa using isAlphaC_ne64 c (ht1 c hc)
  have hTD := takeWhile_append_eq (fun c => c != 64) l 64 (d ++ 46 :: t) hl64 (by simp)
  have hTD2 := takeWhile_append_eq (fun c => c != 46) t.reverse 46 d.reverse htrev (by simp)
  have hrev : (d ++ 46 :: t).reverse = t.reverse ++ 46 :: d.reverse := by
    simp [List.reverse_append]
  have e1 : l.isEmpty = false := List.isEmpty_eq_false.mpr hl1
  have e2 : d.reverse.isEmpty = false :=
    List.isEmpty_eq_false.mpr (by simpa using hd1)
  unfold matchEmail
  rw [hs, hTD.1, hTD.2]
  simp only [List.tail_cons, hrev, hTD2.1, hTD2.2, List.reverse_reverse, List.isEmpty_cons]
  simp [e1, e2, hl2, hrestAll, hd2, ht1, ht2]

/-- C4: `validate_email` trims surrounding whitespace and accepts exactly
the strings whose trimmed form decomposes as
`local-part @ domain . tld` with the regex's character classes and a
top-level domain of at least 2 alphabetic characters; it rejects empty
(or all-whitespace) input, every string without an `@`, and every string
without a dot-separated alphabetic top-level domain of length at least 2. -/
theorem c4_validate_email_characterization (e : Str) :
    (validate_email e = true ↔ emailShape (strip e)) ∧
    (strip e = [] → validate_email e = false) ∧
    (64 ∉ strip e → validate_email e = false) ∧
    ((¬ ∃ d t : Str, strip e = d ++ 46 :: t ∧ t.all isAlphaC = true ∧ 2 ≤ t.length) →
      validate_email e = false) := by
  have hiff : validate_email e = true ↔ emailShape (strip e) := by
    unfold validate_email
    by_cases h : e = []
    · subst h
      constructor
      · intro hf; exact absurd hf (by simp)
      · intro hsh
        obtain ⟨l, d, t, heq, hl1, _⟩ := hsh
        have : strip ([] : Str) = [] := rfl
        rw [this] at heq
        cases l with
        | nil => exact absurd rfl hl1
        | cons x xs => simp at heq
    · rw [if_neg h]
      exact ⟨fun hm => emailShape_of_matchEmail hm, fun hsh => matchEmail_of_emailShape hsh⟩
  refine ⟨hiff, ?_, ?_, ?_⟩
  · intro hnil
    rw [Bool.eq_false_iff]
    intro htrue
    obtain ⟨l, d, t, heq, hl1, _⟩ := hiff.mp htrue
    rw [hnil] at heq
    cases l with
    | nil => exact absurd rfl hl1
    | cons x xs => simp at heq
  · intro hat
    rw [Bool.eq_false_iff]
    intro htrue
    obtain ⟨l, d, t, heq, _⟩ := hiff.mp htrue
    exact hat (by rw [heq]; simp)
  · intro hno
    rw [Bool.eq_false_iff]
    intro htrue
    obtain ⟨l, d, t, heq, _, _, _, _, ht1, ht2⟩ := hiff.mp htrue
    refine hno ⟨l ++ 64 :: d, t, ?_, ht1, ht2⟩
    rw [heq]
    simp

/-- Witness for `c4_validate_email_characterization`: a valid address is
accepted via the pattern decomposition, and an all-whitespace string, a
string without `@`, and a string without a dot-separated alphabetic
top-level domain are each rejected. -/
theorem c4_witness :
    validate_email (S "a@b.com") = true ∧
    validate_email (S "  ") = false ∧
    validate_email (S "ab.com") = false ∧
    validate_email (S "a@bc") = false :=
  ⟨(c4_validate_email_characterization (S "a@b.com")).1.mpr
    ⟨S "a", S "b", S "com", by decide, by decide, by decide, by decide, by decide, by decide,
      by decide⟩,
   (c4_validate_email_characterization (S "  ")).2.1 (by decide),
   (c4_validate_email_characterization (S "ab.com")).2.2.1 (by decide),
   (c4_validate_email_characterization (S "a@bc")).2.2.2 (by
    rintro ⟨d, t, heq, -, -⟩
    have h46 : (46 : Nat) ∉ strip (S "a@bc") := by decide
    exact h46 (by rw [heq]; simp))⟩

/-! ### Row policies of the two passes (C3, C7, C9) -/

/-- C9: in the analysis pass, a row whose email cell is empty after
trimming only advances the total-rows counter — it is counted neither as a
valid email (no `emails_seen` entry) nor as an invalid one — while a row
with a non-empty email that fails validation advances exactly the
total-rows and invalid-emails counters. -/
theorem c9_analysis_empty_email_not_invalid (st : AnalyzeState) (row : Row) :
    (lower (strip (getCol row (S "Email Address"))) = [] →
      analyzeStep st row =
        { st with stats := { st.stats with total_rows := st.stats.total_rows + 1 } }) ∧
    (lower (strip (getCol row (S "Email Address"))) ≠ [] →
      validate_email (lower (strip (getCol row (S "Email Address")))) = false →
      analyzeStep st row =
        { st with stats := { st.stats with total_rows := st.stats.total_rows + 1,
                                           invalid_emails := st.stats.invalid_emails + 1 } }) := by
  constructor
  · intro h
    unfold analyzeStep
    simp [h]
  · intro h1 h2
    unfold analyzeStep
    simp [h1, h2]

/-- Witness for `c9_analysis_empty_email_not_invalid`: a whitespace-only
email advances only `total_rows`; a non-empty invalid email advances
`total_rows` and `invalid_emails`. -/
theorem c9_witness :
    analyzeStep ⟨initStats, [], []⟩ [(S "Email Address", S "  ")] = ⟨⟨1, 0, 0, 0, 0, 0⟩, [], []⟩ ∧
    analyzeStep ⟨initStats, [], []⟩ [(S "Email Address", S "bad")] = ⟨⟨1, 0, 0, 0, 1, 0⟩, [], []⟩ :=
  ⟨((c9_analysis_empty_email_not_invalid ⟨initStats, [], []⟩
      [(S "Email Address", S "  ")]).1 (by decide)).trans (by decide),
   ((c9_analysis_empty_email_not_invalid ⟨initStats, [], []⟩
      [(S "Email Address", S "bad")]).2 (by decide) (by decide)).trans (by decide)⟩

lemma convertStep_skip_invalid {hdr : List Str} {rd : Bool} {st : ConvertState} {row : Row}
    (h : strip (getCol row (emailCol hdr)) = [] ∨
      validate_email (strip (getCol row (emailCol hdr))) = false) :
    convertStep hdr rd st row =
      { st with stats := { st.stats with skipped := st.stats.skipped + 1 } } := by
  unfold convertStep
  rw [if_pos h]

lemma convertStep_skip_dup {hdr : List Str} {rd : Bool} {st : ConvertState} {row : Row}
    (h1 : ¬(strip (getCol row (emailCol hdr)) = [] ∨
      validate_email (strip (getCol row (emailCol hdr))) = false))
    (h2 : rd = true ∧ lower (strip (getCol row (emailCol hdr))) ∈ st.emails_processed) :
    convertStep hdr rd st row =
      { st with stats := { st.stats with skipped := st.stats.skipped + 1 } } := by
  unfold convertStep
  rw [if_neg h1, if_pos h2]

lemma convertStep_accept {hdr : List Str} {rd : Bool} {st : ConvertState} {row : Row}
    (h1 : ¬(strip (getCol row (emailCol hdr)) = [] ∨
      validate_email (strip (getCol row (emailCol hdr))) = false))
    (h2 : ¬(rd = true ∧ lower (strip (getCol row (emailCol hdr))) ∈ st.emails_processed)) :
    convertStep hdr rd st row =
      { stats := { st.stats with
          processed := st.stats.processed + 1,
          tags_cleaned := st.stats.tags_cleaned +
            (if (clean_tags (getCol row (tagsCol hdr))).2 then 1 else 0) },
        emails_processed := st.emails_processed ++ [lower (strip (getCol row (emailCol hdr)))],
        output := st.output ++
          [⟨strip (getCol row (emailCol hdr)),
            clean_name (getCol row (S "First Name")),
            clean_name (getCol row (S "Last Name")),
            (clean_tags (getCol row (tagsCol hdr))).1⟩] } := by
  unfold convertStep
  rw [if_neg h1, if_neg h2]
  by_cases hp : (clean_tags (getCol row (tagsCol hdr))).2 = true
  · simp [hp]
  · simp [hp]

lemma convert_output_valid (hdr : List Str) (rd : Bool) :
    ∀ (rows : List Row) (st : ConvertState),
      (∀ r ∈ st.output, r.email ≠ [] ∧ validate_email r.email = true) →
      ∀ r ∈ (rows.foldl (convertStep hdr rd) st).output,
        r.email ≠ [] ∧ validate_email r.email = true
  | [], st, hst => hst
  | row :: rows, st, hst => by
    rw [List.foldl_cons]
    refine convert_output_valid hdr rd rows (convertStep hdr rd st row) ?_
    by_cases h1 : strip (getCol row (emailCol hdr)) = [] ∨
        validate_email (strip (getCol row (emailCol hdr))) = false
    · rw [convertStep_skip_invalid h1]; exact hst
    · by_cases h2 : rd = true ∧ lower (strip (getCol row (emailCol hdr))) ∈ st.emails_processed
      · rw [convertStep_skip_dup h1 h2]; exact hst
      · rw [convertStep_accept h1 h2]
        intro r hr
        simp only [List.mem_append, List.mem_singleton] at hr
        rcases hr with hr | hr
        · exact hst r hr
        · subst hr
          push_neg at h1
          exact ⟨h1.1, by simpa using h1.2⟩

/-- C3: the conversion pass's row policy, first match wins. A row with an
empty or invalid email only advances the skipped counter and emits
nothing; with duplicate removal on, a row whose lowercased email was
already seen only advances the skipped counter and emits nothing; any
other row appends the lowercased email to the seen set, emits exactly one
record built from the stripped email, the name-cleaned first/last names
and the tag-cleaned tags, and advances the processed counter. Every record
in the output of a run therefore has a non-empty, syntactically valid
email. -/
theorem c3_convert_row_policy (hdr : List Str) (rd : Bool) (st : ConvertState) (row : Row)
    (rows : List Row) (stats0 : Stats) :
    (strip (getCol row (emailCol hdr)) = [] ∨
        validate_email (strip (getCol row (emailCol hdr))) = false →
      convertStep hdr rd st row =
        { st with stats := { st.stats with skipped := st.stats.skipped + 1 } }) ∧
    (rd = true ∧ lower (strip (getCol row (emailCol hdr))) ∈ st.emails_processed →
      ¬(strip (getCol row (emailCol hdr)) = [] ∨
        validate_email (strip (getCol row (emailCol hdr))) = false) →
      convertStep hdr rd st row =
        { st with stats := { st.stats with skipped := st.stats.skipped + 1 } }) ∧
    (¬(strip (getCol row (emailCol hdr)) = [] ∨
        validate_email (strip (getCol row (emailCol hdr))) = false) →
      ¬(rd = true ∧ lower (strip (getCol row (emailCol hdr))) ∈ st.emails_processed) →
      convertStep hdr rd st row =
        { stats := { st.stats with
            processed := st.stats.processed + 1,
            tags_cleaned := st.stats.tags_cleaned +
              (if (clean_tags (getCol row (tagsCol hdr))).2 then 1 else 0) },
          emails_processed := st.emails_processed ++ [lower (strip (getCol row (emailCol hdr)))],
          output := st.output ++
            [⟨strip (getCol row (emailCol hdr)),
              clean_name (getCol row (S "First Name")),
              clean_name (getCol row (S "Last Name")),
              (clean_tags (getCol row (tagsCol hdr))).1⟩] }) ∧
    (∀ r ∈ (convert hdr rd rows stats0).output, r.email ≠ [] ∧ validate_email r.email = true) :=
  ⟨fun h => convertStep_skip_invalid h,
   fun h2 h1 => convertStep_skip_dup h1 h2,
   fun h1 h2 => convertStep_accept h1 h2,
   convert_output_valid hdr rd rows ⟨stats0, [], []⟩ (by simp)⟩

/-- Witness for `c3_convert_row_policy` on concrete rows: an invalid-email
row is skipped, a duplicate row is skipped, a fresh valid row is emitted
with cleaned fields, and the record emitted by a concrete run carries a
valid non-empty email. -/
theorem c3_witness :
    convertStep [S "Email Address", S "TAGS"] true ⟨initStats, [], []⟩
        [(S "Email Address", S "bad")] = ⟨⟨0, 0, 1, 0, 0, 0⟩, [], []⟩ ∧
    convertStep [S "Email Address", S "TAGS"] true ⟨initStats, [S "a@b.com"], []⟩
        [(S "Email Address", S "a@b.com")] = ⟨⟨0, 0, 1, 0, 0, 0⟩, [S "a@b.com"], []⟩ ∧
    convertStep [S "Email Address", S "TAGS"] true ⟨initStats, [], []⟩
        [(S "Email Address", S "A@b.com"), (S "TAGS", S "VIP;'New'"),
         (S "First Name", S " Jane  Q. "), (S "Last Name", S "Public")] =
      ⟨⟨0, 1, 0, 0, 0, 1⟩, [S "a@b.com"],
        [⟨S "A@b.com", S "Jane Q.", S "Public", S "VIP, New"⟩]⟩ ∧
    ((⟨S "a@b.com", [], [], S "VIP"⟩ : OutRow).email ≠ [] ∧
      validate_email (⟨S "a@b.com", [], [], S "VIP"⟩ : OutRow).email = true) :=
  ⟨((c3_convert_row_policy [S "Email Address", S "TAGS"] true ⟨initStats, [], []⟩
      [(S "Email Address", S "bad")] [] initStats).1 (by decide)).trans (by decide),
   ((c3_convert_row_policy [S "Email Address", S "TAGS"] true ⟨initStats, [S "a@b.com"], []⟩
      [(S "Email Address", S "a@b.com")] [] initStats).2.1 (by decide) (by decide)).trans
        (by decide),
   ((c3_convert_row_policy [S "Email Address", S "TAGS"] true ⟨initStats, [], []⟩
      [(S "Email Address", S "A@b.com"), (S "TAGS", S "VIP;'New'"),
       (S "First Name", S " Jane  Q. "), (S "Last Name", S "Public")] [] initStats).2.2.1
        (by decide) (by decide)).trans (by decide),
   (c3_convert_row_policy [S "Email Address", S "TAGS"] true ⟨initStats, [], []⟩
      [] [[(S "Email Address", S "a@b.com"), (S "TAGS", S "VIP")],
          [(S "Email Address", S "bad")]] initStats).2.2.2
      ⟨S "a@b.com", [], [], S "VIP"⟩ (by decide)⟩

lemma convert_nodup (hdr : List Str) :
    ∀ (rows : List Row) (st : ConvertState),
      (st.output.map (fun r => lower r.email)).Nodup →
      (∀ e ∈ st.output.map (fun r => lower r.email), e ∈ st.emails_processed) →
      ((rows.foldl (convertStep hdr true) st).output.map (fun r => lower r.email)).Nodup
  | [], _, h1, _ => h1
  | row :: rows, st, h1, h2 => by
    rw [List.foldl_cons]
    by_cases hc1 : strip (getCol row (emailCol hdr)) = [] ∨
        validate_email (strip (getCol row (emailCol hdr))) = false
    · rw [convertStep_skip_invalid hc1]
      exact convert_nodup hdr rows _ h1 h2
    · by_cases hc2 : (true : Bool) = true ∧
          lower (strip (getCol row (emailCol hdr))) ∈ st.emails_processed
      · rw [convertStep_skip_dup hc1 hc2]
        exact convert_nodup hdr rows _ h1 h2
      · rw [convertStep_accept hc1 hc2]
        have hfresh : lower (strip (getCol row (emailCol hdr))) ∉
            st.output.map (fun r => lower r.email) := by
          intro hmem
          exact hc2 ⟨rfl, h2 _ hmem⟩
        refine convert_nodup hdr rows _ ?_ ?_
        · simp only [List.map_append, List.map_cons, List.map_nil]
          simp [List.nodup_append, h1, hfresh]
        · intro e he
          simp only [List.map_append, List.map_cons, List.map_nil, List.mem_append,
            List.mem_singleton] at he
          rcases he with he | he
          · exact List.mem_append_left _ (h2 e he)
          · subst he; simp

/-- C7: with duplicate removal enabled, the lowercased emails of the
conversion output are pairwise distinct, and a two-row file whose emails
agree after lowercasing but differ in case yields exactly one output
record — the first row in file order, its email in original (stripped)
case. -/
theorem c7_case_insensitive_dedup (hdr : List Str) (rows : List Row) (stats0 stats1 : Stats)
    (r1 r2 : Row)
    (hv1 : validate_email (strip (getCol r1 (emailCol hdr))) = true)
    (hv2 : validate_email (strip (getCol r2 (emailCol hdr))) = true)
    (_hne : strip (getCol r1 (emailCol hdr)) ≠ strip (getCol r2 (emailCol hdr)))
    (hlow : lower (strip (getCol r1 (emailCol hdr))) = lower (strip (getCol r2 (emailCol hdr)))) :
    ((convert hdr true rows stats0).output.map (fun r => lower r.email)).Nodup ∧
    (convert hdr true [r1, r2] stats1).output.map (fun r => r.email) =
      [strip (getCol r1 (emailCol hdr))] := by
  constructor
  · exact convert_nodup hdr rows ⟨stats0, [], []⟩ (by simp) (by simp)
  · have he1 : strip (getCol r1 (emailCol hdr)) ≠ [] := by
      intro h
      unfold validate_email at hv1
      rw [if_pos h] at hv1
      exact Bool.false_ne_true hv1
    have he2 : strip (getCol r2 (emailCol hdr)) ≠ [] := by
      intro h
      unfold validate_email at hv2
      rw [if_pos h] at hv2
      exact Bool.false_ne_true hv2
    unfold convert
    rw [List.foldl_cons, List.foldl_cons, List.foldl_nil]
    have hst1 : convertStep hdr true ⟨stats1, [], []⟩ r1 =
        { stats := { stats1 with
            processed := stats1.processed + 1,
            tags_cleaned := stats1.tags_cleaned +
              (if (clean_tags (getCol r1 (tagsCol hdr))).2 then 1 else 0) },
          emails_processed := [lower (strip (getCol r1 (emailCol hdr)))],
          output := [⟨strip (getCol r1 (emailCol hdr)),
            clean_name (getCol r1 (S "First Name")), clean_name (getCol r1 (S "Last Name")),
            (clean_tags (getCol r1 (tagsCol hdr))).1⟩] } :=
      convertStep_accept (by push_neg; exact ⟨he1, by simp [hv1]⟩) (by simp)
    rw [hst1, convertStep_skip_dup (by push_neg; exact ⟨he2, by simp [hv2]⟩)
      ⟨rfl, by rw [← hlow]; simp⟩]
    simp

/-- Witness for `c7_case_insensitive_dedup`: the file with rows
`A@b.com` and `a@B.com` produces exactly the one record `A@b.com`. -/
theorem c7_witness :
    ((convert [S "Email Address"] true
        [[(S "Email Address", S "A@b.com")], [(S "Email Address", S "a@B.com")]]
        initStats).output.map (fun r => lower r.email)).Nodup ∧
    (convert [S "Email Address"] true
        [[(S "Email Address", S "A@b.com")], [(S "Email Address", S "a@B.com")]]
        initStats).output.map (fun r => r.email) =
      [strip (getCol [(S "Email Address", S "A@b.com")] (emailCol [S "Email Address"]))] :=
  c7_case_insensitive_dedup [S "Email Address"]
    [[(S "Email Address", S "A@b.com")], [(S "Email Address", S "a@B.com")]] initStats initStats
    [(S "Email Address", S "A@b.com")] [(S "Email Address", S "a@B.com")]
    (by decide) (by decide) (by decide) (by decide)

/-- Witness for `c1_counts_agree` at a concrete file: header
`['Email Address', 'TAGS']` (no `'Email'` column), all-ASCII email cells,
one valid row, one invalid row, one row with an empty email. -/
theorem c1_counts_agree_witness :
    analysisValidCount
        [[(S "Email Address", S "a@b.com")], [(S "Email Address", S "x")],
         [(S "Email Address", S "")]] =
      ([[(S "Email Address", S "a@b.com")], [(S "Email Address", S "x")],
        [(S "Email Address", S "")]].filter (convAccepts [S "Email Address", S "TAGS"])).length ∧
    analysisInvalidCount
        [[(S "Email Address", S "a@b.com")], [(S "Email Address", S "x")],
         [(S "Email Address", S "")]] =
      ([[(S "Email Address", S "a@b.com")], [(S "Email Address", S "x")],
        [(S "Email Address", S "")]].filter
          (convSkipsNonemptyInvalid [S "Email Address", S "TAGS"])).length :=
  c1_counts_agree [S "Email Address", S "TAGS"] _ (by decide) (by decide)

end MC2CK
